import Mathlib

/-!
# Discovery thread of rmw_connextdds (rmw_discovery.cpp)

A shallow embedding of `rmw_connextdds_common/src/common/rmw_discovery.cpp`:

* the wait/dispatch loop `rmw_connextdds_discovery_thread`;
* the waitset life cycle `rmw_connextdds_discovery_thread_create_waitset`,
  `rmw_connextdds_discovery_thread_delete_waitset`;
* the entry points `rmw_connextdds_discovery_thread_start` and
  `rmw_connextdds_discovery_thread_stop`.

Modelling conventions.

* A `DDS_Condition *` that may be `nullptr` is an `Option Cond`; the entries
  of the sequence filled by `DDS_WaitSet_wait` are conditions attached to the
  waitset, hence non-null, and are plain `Cond` values.  The C++ comparison
  `cond_dcps_part == cond_active` becomes `cond_dcps_part == some cond_active`.
* Calls into DDS / rmw (attach, detach, wait, thread creation, ...) are
  external.  Their outcomes are read from an environment record, one field per
  call site, and every call made is appended to a trace of `Call`s (for the
  entry points) or of `LoopEvent`s (for the loop).
* `processed_len` and `active_len` are `DDS_UnsignedLong`.  `processed_len` is
  only incremented right after the test `processed_len < active_len`
  succeeded (passes 2, 3 and 4), so it never exceeds `active_len` and never
  wraps; it is a `Nat` here.  `discovery_thread_waitset_size` is an unsigned
  counter that is decremented, so its arithmetic is taken modulo `SIZE_MOD`.
-/

namespace RmwDiscovery

/-! ## The dispatch loop -/

/-- Identity of a non-null `DDS_Condition` object. -/
abbrev Cond := Nat

/-- The four callbacks invoked by the discovery thread. -/
inductive Handler where
  | dcps_participant_on_data
  | dcps_publication_on_data
  | dcps_subscription_on_data
  | graph_on_participant_info
  deriving DecidableEq, Repr

/-- What the discovery thread reads once at start-up: the three reader
condition pointers copied from the context, and the `owns` predicates of the
exit guard condition (`gcond_exit->owns`) and of the participant-info
subscriber condition (`sub_partinfo->condition()->owns`). -/
structure ThreadCtx where
  cond_dcps_part : Option Cond
  cond_dcps_pub : Option Cond
  cond_dcps_sub : Option Cond
  gcond_exit_owns : Cond → Bool
  partinfo_owns : Cond → Bool

/-- Local variables of one loop iteration that the passes update, plus the
handlers invoked so far in the iteration (oldest first). -/
structure IterState where
  active : Bool
  processed_len : Nat
  calls : List Handler
  deriving DecidableEq, Repr

/-- Lines 108-116: scan for the exit condition; `break` at the first hit. -/
def scan_exit (tc : ThreadCtx) : List Cond → IterState → IterState
  | [], s => s
  | c :: rest, s =>
    if tc.gcond_exit_owns c then { s with active := false }
    else scan_exit tc rest s

/-- Lines 120-129: scan for the participant reader condition; the handler is
called at the first hit and the scan stops (`break`). -/
def scan_part (tc : ThreadCtx) : List Cond → IterState → IterState
  | [], s => s
  | c :: rest, s =>
    if tc.cond_dcps_part == some c then
      { s with calls := s.calls ++ [Handler.dcps_participant_on_data],
               processed_len := s.processed_len + 1 }
    else scan_part tc rest s

/-- Lines 134-145: scan for publication / subscription conditions.  The loop
condition `processed_len < active_len && i < active_len && active` is
re-evaluated before every entry; there is no `break`. -/
def scan_pubsub (tc : ThreadCtx) (active_len : Nat) : List Cond → IterState → IterState
  | [], s => s
  | c :: rest, s =>
    if s.processed_len < active_len ∧ s.active = true then
      if tc.cond_dcps_pub == some c then
        scan_pubsub tc active_len rest
          { s with calls := s.calls ++ [Handler.dcps_publication_on_data],
                   processed_len := s.processed_len + 1 }
      else if tc.cond_dcps_sub == some c then
        scan_pubsub tc active_len rest
          { s with calls := s.calls ++ [Handler.dcps_subscription_on_data],
                   processed_len := s.processed_len + 1 }
      else scan_pubsub tc active_len rest s
    else s

/-- Lines 150-158: scan for the participant-info condition (matched with
`owns`); loop condition `i < active_len && active`, `break` at the first
hit. -/
def scan_partinfo (tc : ThreadCtx) : List Cond → IterState → IterState
  | [], s => s
  | c :: rest, s =>
    if s.active = true then
      if tc.partinfo_owns c then
        { s with calls := s.calls ++ [Handler.graph_on_participant_info],
                 processed_len := s.processed_len + 1 }
      else scan_partinfo tc rest s
    else s

/-- Lines 102-159: the four passes over the ready-set `rs` returned by one
successful `DDS_WaitSet_wait`.  An iteration is entered with `active` true
(otherwise the `continue` on line 91 skips it). -/
def iteration (tc : ThreadCtx) (rs : List Cond) : IterState :=
  let active_len := rs.length
  let s0 : IterState := { active := true, processed_len := 0, calls := [] }
  let s1 := scan_exit tc rs s0
  let s2 :=
    if s1.active = true ∧ s1.processed_len < active_len ∧ tc.cond_dcps_part ≠ none then
      scan_part tc rs s1
    else s1
  let s3 :=
    if s2.active = true ∧ (tc.cond_dcps_pub ≠ none ∨ tc.cond_dcps_sub ≠ none) then
      scan_pubsub tc active_len rs s2
    else s2
  if s3.active = true ∧ s3.processed_len < active_len then
    scan_partinfo tc rs s3
  else s3

/-- Line 161: the condition of
`RMW_CONNEXT_ASSERT(processed_len == active_len || !active)`. -/
def iteration_assertion (active_len : Nat) (s : IterState) : Bool :=
  s.processed_len == active_len || !s.active

/-- External inputs of the loop thread: whether
`DDS_ConditionSeq_set_maximum` succeeds, the result of the k-th
`DDS_WaitSet_wait` (`none`: a return code other than `DDS_RETCODE_OK`), and the
value read by the k-th `thread_is_running.load()` (load 0 is the one on
line 86). -/
structure LoopEnv where
  set_maximum_ok : Bool
  wait : Nat → Option (List Cond)
  running : Nat → Bool

/-- What the loop thread does that is visible from outside. -/
inductive LoopEvent where
  | wait
  | handler (h : Handler)
  deriving DecidableEq, Repr

/-- How the thread function ends. -/
inductive LoopExit where
  | terminated        -- the test of the do-while saw false: "main loop terminated"
  | failed            -- goto cleanup after a failed set_maximum or a failed wait
  | assertion_failed  -- the assertion on line 161 did not hold
  | out_of_fuel       -- the model ran out of fuel (the thread is still looping)
  deriving DecidableEq, Repr

/-- Modelled from the spec: the macro `RMW_CONNEXT_ASSERT` is not defined in
this file; following the spec ("a fatal internal-consistency error", "the only
defensive halt") a failed assertion ends the thread.

Lines 88-163: the `do { ... } while (active)` loop.  `nwait` and `nload` count
the waits and flag loads made so far, `tr` is the trace so far.  The `continue`
on line 91 jumps to the test `while (active)`, which is then false. -/
def main_loop (tc : ThreadCtx) (env : LoopEnv) :
    Nat → Bool → Nat → Nat → List LoopEvent → LoopExit × List LoopEvent
  | 0, _, _, _, tr => (LoopExit.out_of_fuel, tr)
  | fuel + 1, active, nwait, nload, tr =>
    if active = false then (LoopExit.terminated, tr)
    else
      match env.wait nwait with
      | none => (LoopExit.failed, tr ++ [LoopEvent.wait])
      | some rs =>
        let s := iteration tc rs
        let tr1 := tr ++ [LoopEvent.wait] ++ s.calls.map LoopEvent.handler
        if iteration_assertion rs.length s = false then
          (LoopExit.assertion_failed, tr1)
        else if s.active = true then
          -- `active && load()`: the flag is loaded only when `active` is true
          if env.running nload = true then
            main_loop tc env fuel true (nwait + 1) (nload + 1) tr1
          else (LoopExit.terminated, tr1)
        else (LoopExit.terminated, tr1)

/-- Lines 53-174: `rmw_connextdds_discovery_thread`. -/
def rmw_connextdds_discovery_thread (tc : ThreadCtx) (env : LoopEnv) (fuel : Nat) :
    LoopExit × List LoopEvent :=
  if env.set_maximum_ok = false then (LoopExit.failed, [])
  else main_loop tc env fuel (env.running 0) 0 1 []

/-! ## Waitset life cycle, start and stop -/

/-- Return codes of the rmw layer; only `RMW_RET_OK` is ever tested for. -/
inductive rmw_ret_t where
  | RMW_RET_OK
  | RMW_RET_ERROR
  | other (code : Nat)
  deriving DecidableEq, Repr

/-- The five conditions the discovery thread's waitset may hold. -/
inductive Source where
  | participant
  | publication
  | subscription
  | partinfo
  | exit
  deriving DecidableEq, Repr

/-- External calls made by start / stop and their helpers, with the outcome
each one had, and the accesses to the atomic flag `thread_is_running`
(`running_store v` for `store(v)`, `running_exchange old` for an
`exchange(false)` that returned `old`).  `assertion_failed` records a violated
`RMW_CONNEXT_ASSERT`. -/
inductive Call where
  | create_guard_condition (res : Option Nat)
  | waitset_new (res : Option Nat)
  | set_enabled_statuses (s : Source) (ok : Bool)
  | attach (s : Source) (ok : Bool)
  | reset_statuses (ok : Bool)
  | enable_statuses (ok : Bool)
  | detach (s : Source) (ok : Bool)
  | waitset_delete
  | thread_create (ok : Bool)
  | trigger_guard_condition (gc : Option Nat) (rc : rmw_ret_t)
  | thread_join (ok : Bool)
  | destroy_guard_condition (gc : Option Nat) (rc : rmw_ret_t)
  | running_store (v : Bool)
  | running_exchange (old : Bool)
  | assertion_failed
  deriving DecidableEq, Repr

/-- Modelled from the spec: the declaration of
`discovery_thread_waitset_size` is not in this file ("a count of
currently-registered sources"); it is an unsigned counter, taken as a 32-bit
`DDS_UnsignedLong`, the type of the `set_maximum` argument it is passed as. -/
def SIZE_MOD : Nat := 4294967296

/-- Unsigned `+= 1`. -/
def size_inc (n : Nat) : Nat := (n + 1) % SIZE_MOD

/-- Unsigned `-= 1`. -/
def size_dec (n : Nat) : Nat := (n + SIZE_MOD - 1) % SIZE_MOD

/-- The fields of `rmw_context_impl_t` (and of its `common` member) that this
file reads or writes.  Pointers are `Option`s, `none` being `nullptr`.
`listener_thread_joinable` is the state of the `std::thread` object. -/
structure Context where
  dr_participants : Option Nat
  dr_publications : Option Nat
  dr_subscriptions : Option Nat
  discovery_thread_waitset : Option Nat
  discovery_thread_cond_dcps_part : Option Cond
  discovery_thread_cond_dcps_pub : Option Cond
  discovery_thread_cond_dcps_sub : Option Cond
  discovery_thread_exit_cond : Bool
  discovery_thread_discinfo_cond : Bool
  discovery_thread_waitset_size : Nat
  listener_thread_gc : Option Nat
  thread_is_running : Bool
  listener_thread_joinable : Bool
  deriving DecidableEq, Repr

/-- Outcomes of the two DDS calls of `rmw_connextdds_attach_reader_to_waitset`
for one reader, and the status condition DDS hands out for it. -/
structure ReaderEnv where
  cond : Cond
  set_enabled_statuses_ok : Bool
  attach_condition_ok : Bool
  deriving DecidableEq, Repr

/-- Outcome of every external call site for one invocation of start or stop
(each call site is executed at most once per invocation). -/
structure Env where
  create_guard_condition : Option Nat
  waitset_new : Option Nat
  participants : ReaderEnv
  publications : ReaderEnv
  subscriptions : ReaderEnv
  reset_statuses_ok : Bool
  enable_statuses_ok : Bool
  partinfo_attach_ok : Bool
  exit_attach_ok : Bool
  exit_detach_ok : Bool
  partinfo_detach_ok : Bool
  part_detach_ok : Bool
  sub_detach_ok : Bool
  pub_detach_ok : Bool
  thread_create_ok : Bool
  trigger_rc : rmw_ret_t
  thread_join_ok : Bool
  destroy_guard_condition_rc : rmw_ret_t
  deriving DecidableEq, Repr

/-- Result of a function of the file: return code, context afterwards, and
the external calls it made, in order. -/
structure Ret where
  ret : rmw_ret_t
  ctx : Context
  calls : List Call
  deriving DecidableEq, Repr

/-- Lines 23-49: `rmw_connextdds_attach_reader_to_waitset`; `none` is the
`nullptr` returned on failure. -/
def rmw_connextdds_attach_reader_to_waitset (re : ReaderEnv) (src : Source) :
    Option Cond × List Call :=
  if re.set_enabled_statuses_ok = false then
    (none, [Call.set_enabled_statuses src false])
  else if re.attach_condition_ok = false then
    (none, [Call.set_enabled_statuses src true, Call.attach src false])
  else
    (some re.cond, [Call.set_enabled_statuses src true, Call.attach src true])

/-- Put the calls `tr`, made earlier, in front of the calls of a result. -/
def Ret.after (tr : List Call) (r : Ret) : Ret :=
  { r with calls := tr ++ r.calls }

/-- Modelled from the spec: the macro `RMW_CONNEXT_ASSERT` is not defined in
this file; following the spec ("assert-fail, not a recoverable error") a
violated assertion is a halt, recorded as the event `assertion_failed` that
ends the trace; what is returned after it is immaterial.

Lines 252-255: delete the waitset and check the counter. -/
def delete_waitset_finish (ctx : Context) : Ret :=
  let ctx1 := { ctx with discovery_thread_waitset := none }
  if ctx1.discovery_thread_waitset_size = 0 then
    ⟨rmw_ret_t.RMW_RET_OK, ctx1, [Call.waitset_delete]⟩
  else
    ⟨rmw_ret_t.RMW_RET_OK, ctx1, [Call.waitset_delete, Call.assertion_failed]⟩

/-- Lines 238-251, then the rest: detach the publication condition. -/
def delete_waitset_pub (env : Env) (ctx : Context) : Ret :=
  if ctx.discovery_thread_cond_dcps_pub ≠ none then
    if env.pub_detach_ok = false then
      ⟨rmw_ret_t.RMW_RET_ERROR, ctx, [Call.detach Source.publication false]⟩
    else
      (delete_waitset_finish
        { ctx with discovery_thread_cond_dcps_pub := none,
                   discovery_thread_waitset_size := size_dec ctx.discovery_thread_waitset_size }).after
        [Call.detach Source.publication true]
  else delete_waitset_finish ctx

/-- Lines 224-237, then the rest: detach the subscription condition. -/
def delete_waitset_sub (env : Env) (ctx : Context) : Ret :=
  if ctx.discovery_thread_cond_dcps_sub ≠ none then
    if env.sub_detach_ok = false then
      ⟨rmw_ret_t.RMW_RET_ERROR, ctx, [Call.detach Source.subscription false]⟩
    else
      (delete_waitset_pub env
        { ctx with discovery_thread_cond_dcps_sub := none,
                   discovery_thread_waitset_size := size_dec ctx.discovery_thread_waitset_size }).after
        [Call.detach Source.subscription true]
  else delete_waitset_pub env ctx

/-- Lines 210-223, then the rest: detach the participant condition. -/
def delete_waitset_part (env : Env) (ctx : Context) : Ret :=
  if ctx.discovery_thread_cond_dcps_part ≠ none then
    if env.part_detach_ok = false then
      ⟨rmw_ret_t.RMW_RET_ERROR, ctx, [Call.detach Source.participant false]⟩
    else
      (delete_waitset_sub env
        { ctx with discovery_thread_cond_dcps_part := none,
                   discovery_thread_waitset_size := size_dec ctx.discovery_thread_waitset_size }).after
        [Call.detach Source.participant true]
  else delete_waitset_sub env ctx

/-- Lines 198-209, then the rest: detach the participant-info condition. -/
def delete_waitset_discinfo (env : Env) (ctx : Context) : Ret :=
  if ctx.discovery_thread_discinfo_cond = true then
    if env.partinfo_detach_ok = false then
      ⟨rmw_ret_t.RMW_RET_ERROR, ctx, [Call.detach Source.partinfo false]⟩
    else
      (delete_waitset_part env
        { ctx with discovery_thread_discinfo_cond := false,
                   discovery_thread_waitset_size := size_dec ctx.discovery_thread_waitset_size }).after
        [Call.detach Source.partinfo true]
  else delete_waitset_part env ctx

/-- Lines 176-256: `rmw_connextdds_discovery_thread_delete_waitset`. -/
def rmw_connextdds_discovery_thread_delete_waitset (env : Env) (ctx : Context) : Ret :=
  if ctx.discovery_thread_waitset = none then
    ⟨rmw_ret_t.RMW_RET_OK, ctx, []⟩
  else if ctx.discovery_thread_exit_cond = true then
    if env.exit_detach_ok = false then
      ⟨rmw_ret_t.RMW_RET_ERROR, ctx, [Call.detach Source.exit false]⟩
    else
      (delete_waitset_discinfo env
        { ctx with discovery_thread_exit_cond := false,
                   discovery_thread_waitset_size := size_dec ctx.discovery_thread_waitset_size }).after
        [Call.detach Source.exit true]
  else delete_waitset_discinfo env ctx

/-- Lines 340-348: the `cleanup:` label of create_waitset. -/
def create_waitset_cleanup (env : Env) (ctx : Context) : Ret :=
  let d := rmw_connextdds_discovery_thread_delete_waitset env ctx
  if d.ret ≠ rmw_ret_t.RMW_RET_OK then d
  else { d with ret := rmw_ret_t.RMW_RET_ERROR }

/-- Lines 330-338: attach the exit condition. -/
def create_waitset_exit (env : Env) (ctx : Context) : Ret :=
  if env.exit_attach_ok = false then
    (create_waitset_cleanup env ctx).after [Call.attach Source.exit false]
  else
    ⟨rmw_ret_t.RMW_RET_OK,
     { ctx with discovery_thread_waitset_size := size_inc ctx.discovery_thread_waitset_size,
                discovery_thread_exit_cond := true },
     [Call.attach Source.exit true]⟩

/-- Lines 308-328, then the rest: reset, enable and attach the
participant-info condition. -/
def create_waitset_partinfo (env : Env) (ctx : Context) : Ret :=
  if env.reset_statuses_ok = false then
    (create_waitset_cleanup env ctx).after [Call.reset_statuses false]
  else if env.enable_statuses_ok = false then
    (create_waitset_cleanup env ctx).after
      [Call.reset_statuses true, Call.enable_statuses false]
  else if env.partinfo_attach_ok = false then
    (create_waitset_cleanup env ctx).after
      [Call.reset_statuses true, Call.enable_statuses true, Call.attach Source.partinfo false]
  else
    (create_waitset_exit env
      { ctx with discovery_thread_waitset_size := size_inc ctx.discovery_thread_waitset_size,
                 discovery_thread_discinfo_cond := true }).after
      [Call.reset_statuses true, Call.enable_statuses true, Call.attach Source.partinfo true]

/-- Lines 298-306, then the rest: the subscriptions reader. -/
def create_waitset_sub (env : Env) (ctx : Context) : Ret :=
  if ctx.dr_subscriptions ≠ none then
    let r := rmw_connextdds_attach_reader_to_waitset env.subscriptions Source.subscription
    match r.1 with
    | none => (create_waitset_cleanup env ctx).after r.2
    | some c =>
      (create_waitset_partinfo env
        { ctx with discovery_thread_waitset_size := size_inc ctx.discovery_thread_waitset_size,
                   discovery_thread_cond_dcps_sub := some c }).after r.2
  else create_waitset_partinfo env ctx

/-- Lines 289-297, then the rest: the publications reader. -/
def create_waitset_pub (env : Env) (ctx : Context) : Ret :=
  if ctx.dr_publications ≠ none then
    let r := rmw_connextdds_attach_reader_to_waitset env.publications Source.publication
    match r.1 with
    | none => (create_waitset_cleanup env ctx).after r.2
    | some c =>
      (create_waitset_sub env
        { ctx with discovery_thread_waitset_size := size_inc ctx.discovery_thread_waitset_size,
                   discovery_thread_cond_dcps_pub := some c }).after r.2
  else create_waitset_sub env ctx

/-- Lines 280-288, then the rest: the participants reader. -/
def create_waitset_part (env : Env) (ctx : Context) : Ret :=
  if ctx.dr_participants ≠ none then
    let r := rmw_connextdds_attach_reader_to_waitset env.participants Source.participant
    match r.1 with
    | none => (create_waitset_cleanup env ctx).after r.2
    | some c =>
      (create_waitset_pub env
        { ctx with discovery_thread_waitset_size := size_inc ctx.discovery_thread_waitset_size,
                   discovery_thread_cond_dcps_part := some c }).after r.2
  else create_waitset_pub env ctx

/-- Lines 258-349: `rmw_connextdds_discovery_thread_create_waitset`. -/
def rmw_connextdds_discovery_thread_create_waitset (env : Env) (ctx : Context) : Ret :=
  let ctx0 := { ctx with discovery_thread_waitset := env.waitset_new }
  if ctx0.discovery_thread_waitset = none then
    ⟨rmw_ret_t.RMW_RET_ERROR, ctx0, [Call.waitset_new env.waitset_new]⟩
  else
    (create_waitset_part env ctx0).after [Call.waitset_new env.waitset_new]

/-- Lines 387-403: the error path of start after a failed thread creation. -/
def start_thread_failed (env : Env) (ctx : Context) : Ret :=
  let ctx1 := { ctx with thread_is_running := false }
  let d := (rmw_connextdds_discovery_thread_delete_waitset env ctx1).after
    [Call.running_store false]
  if d.ret ≠ rmw_ret_t.RMW_RET_OK then d
  else
    let tr1 := d.calls ++
      [Call.destroy_guard_condition d.ctx.listener_thread_gc env.destroy_guard_condition_rc]
    if env.destroy_guard_condition_rc ≠ rmw_ret_t.RMW_RET_OK then
      ⟨env.destroy_guard_condition_rc, d.ctx, tr1⟩
    else ⟨rmw_ret_t.RMW_RET_ERROR, d.ctx, tr1⟩

/-- Lines 351-404: `rmw_connextdds_discovery_thread_start`. -/
def rmw_connextdds_discovery_thread_start (env : Env) (ctx : Context) : Ret :=
  let ctx0 := { ctx with listener_thread_gc := env.create_guard_condition }
  let tr0 := [Call.create_guard_condition env.create_guard_condition]
  if ctx0.listener_thread_gc = none then
    ⟨rmw_ret_t.RMW_RET_ERROR, ctx0, tr0⟩
  else
    let w := (rmw_connextdds_discovery_thread_create_waitset env ctx0).after tr0
    if w.ret ≠ rmw_ret_t.RMW_RET_OK then w
    else
      let ctx1 := { w.ctx with thread_is_running := true }
      let tr1 := w.calls ++ [Call.running_store true]
      if env.thread_create_ok = true then
        ⟨rmw_ret_t.RMW_RET_OK, { ctx1 with listener_thread_joinable := true },
         tr1 ++ [Call.thread_create true]⟩
      else
        (start_thread_failed env ctx1).after (tr1 ++ [Call.thread_create false])

/-- Lines 406-446: `rmw_connextdds_discovery_thread_stop`.  The
`exchange(false)` stores `false` whatever the previous value was. -/
def rmw_connextdds_discovery_thread_stop (env : Env) (ctx : Context) : Ret :=
  let ctx0 := { ctx with thread_is_running := false }
  if ctx.thread_is_running = true then
    let tr0 := [Call.running_exchange true,
                Call.trigger_guard_condition ctx0.listener_thread_gc env.trigger_rc]
    if env.trigger_rc ≠ rmw_ret_t.RMW_RET_OK then ⟨env.trigger_rc, ctx0, tr0⟩
    else if env.thread_join_ok = false then
      ⟨rmw_ret_t.RMW_RET_ERROR, ctx0, tr0 ++ [Call.thread_join false]⟩
    else
      let ctx1 := { ctx0 with listener_thread_joinable := false }
      let d := (rmw_connextdds_discovery_thread_delete_waitset env ctx1).after
        (tr0 ++ [Call.thread_join true])
      if d.ret ≠ rmw_ret_t.RMW_RET_OK then d
      else
        let tr2 := d.calls ++
          [Call.destroy_guard_condition d.ctx.listener_thread_gc env.destroy_guard_condition_rc]
        if env.destroy_guard_condition_rc ≠ rmw_ret_t.RMW_RET_OK then
          ⟨env.destroy_guard_condition_rc, d.ctx, tr2⟩
        else ⟨rmw_ret_t.RMW_RET_OK, d.ctx, tr2⟩
  else ⟨rmw_ret_t.RMW_RET_OK, ctx0, [Call.running_exchange false]⟩

/-! ## Vocabulary of the properties -/

/-- Ready-set entry `c` denotes the source served by handler `h`: pointer
equality for the three readers, `owns` for the participant-info condition. -/
def identifies (tc : ThreadCtx) (c : Cond) : Handler → Bool
  | Handler.dcps_participant_on_data => tc.cond_dcps_part == some c
  | Handler.dcps_publication_on_data => tc.cond_dcps_pub == some c
  | Handler.dcps_subscription_on_data => tc.cond_dcps_sub == some c
  | Handler.graph_on_participant_info => tc.partinfo_owns c

/-- Entry `c` is the identity of some registered source. -/
def registered (tc : ThreadCtx) (c : Cond) : Bool :=
  identifies tc c Handler.dcps_participant_on_data ||
  identifies tc c Handler.dcps_publication_on_data ||
  identifies tc c Handler.dcps_subscription_on_data ||
  identifies tc c Handler.graph_on_participant_info

/-- Priority order of the dispatch: participant first, then publication and
subscription in the order given, then participant-info. -/
def priority_order (srcs : List Handler) : List Handler :=
  srcs.filter (fun h => h == Handler.dcps_participant_on_data) ++
  srcs.filter (fun h => h == Handler.dcps_publication_on_data ||
                        h == Handler.dcps_subscription_on_data) ++
  srcs.filter (fun h => h == Handler.graph_on_participant_info)

/-- A context in which no waitset exists, nothing is recorded as attached,
the counter is zero and the thread is not running. -/
def clean (ctx : Context) : Prop :=
  ctx.discovery_thread_waitset = none ∧
  ctx.discovery_thread_cond_dcps_part = none ∧
  ctx.discovery_thread_cond_dcps_pub = none ∧
  ctx.discovery_thread_cond_dcps_sub = none ∧
  ctx.discovery_thread_exit_cond = false ∧
  ctx.discovery_thread_discinfo_cond = false ∧
  ctx.discovery_thread_waitset_size = 0 ∧
  ctx.thread_is_running = false ∧
  ctx.listener_thread_joinable = false

/-- The order in which create_waitset attaches the sources (lines 280-336). -/
def attach_order : List Source :=
  [Source.participant, Source.publication, Source.subscription, Source.partinfo, Source.exit]

/-- Whether the context records source `s` as attached: a non-null condition
pointer for the three readers, the flag for the other two. -/
def recorded (ctx : Context) : Source → Bool
  | Source.participant => ctx.discovery_thread_cond_dcps_part.isSome
  | Source.publication => ctx.discovery_thread_cond_dcps_pub.isSome
  | Source.subscription => ctx.discovery_thread_cond_dcps_sub.isSome
  | Source.partinfo => ctx.discovery_thread_discinfo_cond
  | Source.exit => ctx.discovery_thread_exit_cond

/-- The sources the context records as attached, in attach order. -/
def recorded_attached (ctx : Context) : List Source :=
  attach_order.filter (recorded ctx)

/-- The dataset classes enabled in the context, in attach order. -/
def enabled_sources (ctx : Context) : List Source :=
  (if ctx.dr_participants ≠ none then [Source.participant] else []) ++
  (if ctx.dr_publications ≠ none then [Source.publication] else []) ++
  (if ctx.dr_subscriptions ≠ none then [Source.subscription] else [])

/-- Sources attached to the waitset by the calls of a trace, in order. -/
def attached_sources (tr : List Call) : List Source :=
  tr.filterMap (fun c => match c with
    | Call.attach s true => some s
    | _ => none)

/-- Sources detached from the waitset by the calls of a trace, in order. -/
def detached_sources (tr : List Call) : List Source :=
  tr.filterMap (fun c => match c with
    | Call.detach s true => some s
    | _ => none)

/-- Number of times the guard condition is triggered in a trace. -/
def trigger_count (tr : List Call) : Nat :=
  tr.countP (fun c => match c with
    | Call.trigger_guard_condition _ _ => true
    | _ => false)

/-- The calls of a trace that destroy guard condition `gc`. -/
def destroys (gc : Option Nat) (tr : List Call) : List Call :=
  tr.filter (fun c => match c with
    | Call.destroy_guard_condition g _ => g == gc
    | _ => false)

/-- The counter equals the number of sources recorded as attached. -/
def count_inv (ctx : Context) : Prop :=
  ctx.discovery_thread_waitset_size = (recorded_attached ctx).length

/-- Everything borrowed has been given back: counter zero, nothing recorded
as attached, no waitset. -/
def released (ctx : Context) : Prop :=
  ctx.discovery_thread_waitset_size = 0 ∧ recorded_attached ctx = [] ∧
  ctx.discovery_thread_waitset = none

/-- Results of successive calls of delete_waitset, one per environment. -/
def run_deletes : List Env → Context → List Ret
  | [], _ => []
  | e :: es, ctx =>
    let r := rmw_connextdds_discovery_thread_delete_waitset e ctx
    r :: run_deletes es r.ctx

/-- Results of successive calls of stop, one per environment. -/
def run_stops : List Env → Context → List Ret
  | [], _ => []
  | e :: es, ctx =>
    let r := rmw_connextdds_discovery_thread_stop e ctx
    r :: run_stops es r.ctx

/-- The order in which delete_waitset visits the sources (lines 185-251). -/
def teardown_order : List Source :=
  [Source.exit, Source.partinfo, Source.participant, Source.subscription, Source.publication]

/-- The steps of waitset construction that can fail. -/
inductive Step where
  | part_config | part_attach
  | pub_config | pub_attach
  | sub_config | sub_attach
  | partinfo_reset | partinfo_enable | partinfo_attach
  | exit_attach
  deriving DecidableEq, Repr

/-- Whether create_waitset has the step at all in this context: the reader
steps exist only for an enabled class. -/
def step_applies (ctx : Context) : Step → Bool
  | Step.part_config | Step.part_attach => ctx.dr_participants.isSome
  | Step.pub_config | Step.pub_attach => ctx.dr_publications.isSome
  | Step.sub_config | Step.sub_attach => ctx.dr_subscriptions.isSome
  | _ => true

/-- Outcome the environment gives to the external call of a step. -/
def step_ok (env : Env) : Step → Bool
  | Step.part_config => env.participants.set_enabled_statuses_ok
  | Step.part_attach => env.participants.attach_condition_ok
  | Step.pub_config => env.publications.set_enabled_statuses_ok
  | Step.pub_attach => env.publications.attach_condition_ok
  | Step.sub_config => env.subscriptions.set_enabled_statuses_ok
  | Step.sub_attach => env.subscriptions.attach_condition_ok
  | Step.partinfo_reset => env.reset_statuses_ok
  | Step.partinfo_enable => env.enable_statuses_ok
  | Step.partinfo_attach => env.partinfo_attach_ok
  | Step.exit_attach => env.exit_attach_ok

/-- Outcome the environment gives to the detach call of a source. -/
def detach_ok (env : Env) : Source → Bool
  | Source.participant => env.part_detach_ok
  | Source.publication => env.pub_detach_ok
  | Source.subscription => env.sub_detach_ok
  | Source.partinfo => env.partinfo_detach_ok
  | Source.exit => env.exit_detach_ok

/-- Forget that source `s` is attached and decrement the counter. -/
def clear_record (ctx : Context) : Source → Context
  | Source.participant =>
    { ctx with discovery_thread_cond_dcps_part := none,
               discovery_thread_waitset_size := size_dec ctx.discovery_thread_waitset_size }
  | Source.publication =>
    { ctx with discovery_thread_cond_dcps_pub := none,
               discovery_thread_waitset_size := size_dec ctx.discovery_thread_waitset_size }
  | Source.subscription =>
    { ctx with discovery_thread_cond_dcps_sub := none,
               discovery_thread_waitset_size := size_dec ctx.discovery_thread_waitset_size }
  | Source.partinfo =>
    { ctx with discovery_thread_discinfo_cond := false,
               discovery_thread_waitset_size := size_dec ctx.discovery_thread_waitset_size }
  | Source.exit =>
    { ctx with discovery_thread_exit_cond := false,
               discovery_thread_waitset_size := size_dec ctx.discovery_thread_waitset_size }

/-- The detach blocks of delete_waitset (lines 185-251) written as one
recursion over the list of sources still to visit, followed by lines 252-255;
`delete_waitset_eq_teardown` shows that delete_waitset is this function run on
`teardown_order`. -/
def teardown (env : Env) : List Source → Context → Ret
  | [], ctx => delete_waitset_finish ctx
  | s :: rest, ctx =>
    if recorded ctx s = true then
      if detach_ok env s = false then
        ⟨rmw_ret_t.RMW_RET_ERROR, ctx, [Call.detach s false]⟩
      else (teardown env rest (clear_record ctx s)).after [Call.detach s true]
    else teardown env rest ctx

/-- The fields that create_waitset and delete_waitset never write. -/
def frame (ctx ctx1 : Context) : Prop :=
  ctx1.dr_participants = ctx.dr_participants ∧
  ctx1.dr_publications = ctx.dr_publications ∧
  ctx1.dr_subscriptions = ctx.dr_subscriptions ∧
  ctx1.listener_thread_gc = ctx.listener_thread_gc ∧
  ctx1.thread_is_running = ctx.thread_is_running ∧
  ctx1.listener_thread_joinable = ctx.listener_thread_joinable

/-- Calls that delete_waitset can make. -/
def teardown_call : Call → Bool
  | Call.detach _ _ | Call.waitset_delete | Call.assertion_failed => true
  | _ => false

/-- Calls that create_waitset can make. -/
def waitset_call : Call → Bool
  | Call.waitset_new _ | Call.set_enabled_statuses _ _ | Call.attach _ _
  | Call.reset_statuses _ | Call.enable_statuses _ => true
  | c => teardown_call c

/-- Every detach call of the environment succeeds. -/
def detaches_ok (env : Env) : Prop :=
  ∀ s : Source, detach_ok env s = true

/-- Every external call of the environment succeeds. -/
def all_ok (env : Env) : Prop :=
  env.create_guard_condition ≠ none ∧ env.waitset_new ≠ none ∧
  env.participants.set_enabled_statuses_ok = true ∧
  env.participants.attach_condition_ok = true ∧
  env.publications.set_enabled_statuses_ok = true ∧
  env.publications.attach_condition_ok = true ∧
  env.subscriptions.set_enabled_statuses_ok = true ∧
  env.subscriptions.attach_condition_ok = true ∧
  env.reset_statuses_ok = true ∧ env.enable_statuses_ok = true ∧
  env.partinfo_attach_ok = true ∧ env.exit_attach_ok = true ∧
  detaches_ok env ∧ env.thread_create_ok = true ∧
  env.trigger_rc = rmw_ret_t.RMW_RET_OK ∧ env.thread_join_ok = true ∧
  env.destroy_guard_condition_rc = rmw_ret_t.RMW_RET_OK

/-- Record source `s` as attached (with condition `c` for a reader) and
increment the counter: the two assignments that follow each successful attach
in create_waitset. -/
def set_record (ctx : Context) (c : Cond) : Source → Context
  | Source.participant =>
    { ctx with discovery_thread_waitset_size := size_inc ctx.discovery_thread_waitset_size,
               discovery_thread_cond_dcps_part := some c }
  | Source.publication =>
    { ctx with discovery_thread_waitset_size := size_inc ctx.discovery_thread_waitset_size,
               discovery_thread_cond_dcps_pub := some c }
  | Source.subscription =>
    { ctx with discovery_thread_waitset_size := size_inc ctx.discovery_thread_waitset_size,
               discovery_thread_cond_dcps_sub := some c }
  | Source.partinfo =>
    { ctx with discovery_thread_waitset_size := size_inc ctx.discovery_thread_waitset_size,
               discovery_thread_discinfo_cond := true }
  | Source.exit =>
    { ctx with discovery_thread_waitset_size := size_inc ctx.discovery_thread_waitset_size,
               discovery_thread_exit_cond := true }

/-- What holds of the result `r` of create_waitset, or of its part that
starts with the steps `steps`, when run from context `ctx`. -/
def CreatePost (env : Env) (ctx : Context) (steps : List Step) (r : Ret) : Prop :=
  count_inv r.ctx ∧ Call.assertion_failed ∉ r.calls ∧ frame ctx r.ctx ∧
  (∀ c ∈ r.calls, waitset_call c = true) ∧
  (r.ret = rmw_ret_t.RMW_RET_OK →
    (∀ st ∈ steps, step_applies ctx st = true → step_ok env st = true) ∧
    r.ctx.discovery_thread_waitset = ctx.discovery_thread_waitset) ∧
  (r.ret ≠ rmw_ret_t.RMW_RET_OK → detaches_ok env →
    released r.ctx ∧
    (detached_sources r.calls).Perm (recorded_attached ctx ++ attached_sources r.calls))

/-- The steps of create_waitset from the participant-info condition on. -/
def steps_partinfo : List Step :=
  [Step.partinfo_reset, Step.partinfo_enable, Step.partinfo_attach, Step.exit_attach]

/-- The steps of create_waitset from the subscriptions reader on. -/
def steps_sub : List Step := [Step.sub_config, Step.sub_attach] ++ steps_partinfo

/-- The steps of create_waitset from the publications reader on. -/
def steps_pub : List Step := [Step.pub_config, Step.pub_attach] ++ steps_sub

/-- All the steps of create_waitset that can fail, in order. -/
def steps_all : List Step := [Step.part_config, Step.part_attach] ++ steps_pub

/-- A clean context with only the participants and publications readers. -/
def ctx_part_pub : Context :=
  { dr_participants := some 100, dr_publications := some 101, dr_subscriptions := none,
    discovery_thread_waitset := none, discovery_thread_cond_dcps_part := none,
    discovery_thread_cond_dcps_pub := none, discovery_thread_cond_dcps_sub := none,
    discovery_thread_exit_cond := false, discovery_thread_discinfo_cond := false,
    discovery_thread_waitset_size := 0, listener_thread_gc := none,
    thread_is_running := false, listener_thread_joinable := false }

/-- A clean context with only the publications reader. -/
def ctx_pub : Context := { ctx_part_pub with dr_participants := none }

/-- A clean context with no reader at all. -/
def ctx_none : Context := { ctx_pub with dr_publications := none }

/-- A clean context with the three readers. -/
def ctx_all : Context := { ctx_part_pub with dr_subscriptions := some 102 }

/-- An environment in which every external call succeeds. -/
def env_ok : Env :=
  { create_guard_condition := some 7, waitset_new := some 1,
    participants := ⟨10, true, true⟩, publications := ⟨11, true, true⟩,
    subscriptions := ⟨12, true, true⟩,
    reset_statuses_ok := true, enable_statuses_ok := true, partinfo_attach_ok := true,
    exit_attach_ok := true, exit_detach_ok := true, partinfo_detach_ok := true,
    part_detach_ok := true, sub_detach_ok := true, pub_detach_ok := true,
    thread_create_ok := true, trigger_rc := rmw_ret_t.RMW_RET_OK, thread_join_ok := true,
    destroy_guard_condition_rc := rmw_ret_t.RMW_RET_OK }

/-- Entry `c` is the participant reader's condition (the test of line 122). -/
def is_part (tc : ThreadCtx) (c : Cond) : Bool := tc.cond_dcps_part == some c

/-- The handler that the body of the third pass (lines 136-144) calls for
entry `c`, if any. -/
def pubsub_handler (tc : ThreadCtx) (c : Cond) : Option Handler :=
  if tc.cond_dcps_pub == some c then some Handler.dcps_publication_on_data
  else if tc.cond_dcps_sub == some c then some Handler.dcps_subscription_on_data
  else none

/-- Closed form of an iteration on a ready-set without exit entry in which
the third pass is not cut short: handlers called and entries counted. -/
def dispatch_summary (tc : ThreadCtx) (rs : List Cond) : IterState :=
  let first := if rs.any (is_part tc) then [Handler.dcps_participant_on_data] else []
  let second := rs.filterMap (pubsub_handler tc)
  let last :=
    if first.length + second.length < rs.length ∧ rs.any tc.partinfo_owns = true then
      [Handler.graph_on_participant_info]
    else []
  { active := true,
    processed_len := first.length + second.length + last.length,
    calls := first ++ second ++ last }

/-- Entry `c` matches at most one of the three tests made by the passes:
participant reader, publication or subscription reader, participant-info. -/
def exclusive (tc : ThreadCtx) (c : Cond) : Prop :=
  (is_part tc c = true → pubsub_handler tc c = none ∧ tc.partinfo_owns c = false) ∧
  (pubsub_handler tc c ≠ none → tc.partinfo_owns c = false)

/-- The registered reader identities are distinct from each other and none of
them is owned by the participant-info condition. -/
def distinct_identities (tc : ThreadCtx) : Prop :=
  (∀ c, tc.cond_dcps_part = some c →
    tc.cond_dcps_pub ≠ some c ∧ tc.cond_dcps_sub ≠ some c) ∧
  (∀ c, tc.cond_dcps_pub = some c → tc.cond_dcps_sub ≠ some c) ∧
  (∀ c, tc.cond_dcps_part = some c ∨ tc.cond_dcps_pub = some c ∨ tc.cond_dcps_sub = some c →
    tc.partinfo_owns c = false)

/-- A thread context used in examples: participant, publication and
subscription reader conditions 1, 2 and 3; the exit guard condition owns 9 and
the participant-info condition owns 4. -/
def tc_example : ThreadCtx :=
  { cond_dcps_part := some 1, cond_dcps_pub := some 2, cond_dcps_sub := some 3,
    gcond_exit_owns := fun c => c == 9, partinfo_owns := fun c => c == 4 }

/-- Entry `c` identifies the source served by `s` and no other source. -/
def identifies_only (tc : ThreadCtx) (c : Cond) (s : Handler) : Prop :=
  ∀ h : Handler, identifies tc c h = true ↔ h = s

/-- The handler of the third pass for an entry known to identify `s`. -/
def pubsub_of (s : Handler) : Option Handler :=
  match s with
  | Handler.dcps_publication_on_data => some Handler.dcps_publication_on_data
  | Handler.dcps_subscription_on_data => some Handler.dcps_subscription_on_data
  | _ => none

/-! ## The dispatch loop: cancellation -/

theorem scan_exit_of_owned (tc : ThreadCtx) (rs : List Cond) (s : IterState)
    (h : ∃ c ∈ rs, tc.gcond_exit_owns c = true) :
    scan_exit tc rs s = { s with active := false } := by
  induction rs with
  | nil => simp at h
  | cons c rest ih =>
    by_cases hc : tc.gcond_exit_owns c = true
    · simp [scan_exit, hc]
    · have hrest : ∃ d ∈ rest, tc.gcond_exit_owns d = true := by
        obtain ⟨d, hd, hown⟩ := h
        rcases List.mem_cons.mp hd with rfl | hd
        · exact absurd hown hc
        · exact ⟨d, hd, hown⟩
      simp [scan_exit, hc, ih hrest]

theorem scan_exit_of_not_owned (tc : ThreadCtx) (rs : List Cond) (s : IterState)
    (h : ∀ c ∈ rs, tc.gcond_exit_owns c = false) :
    scan_exit tc rs s = s := by
  induction rs with
  | nil => rfl
  | cons c rest ih =>
    have hc := h c (List.mem_cons_self c rest)
    simp [scan_exit, hc, ih (fun d hd => h d (List.mem_cons_of_mem c hd))]

theorem iteration_of_exit (tc : ThreadCtx) (rs : List Cond)
    (h : ∃ c ∈ rs, tc.gcond_exit_owns c = true) :
    iteration tc rs = { active := false, processed_len := 0, calls := [] } := by
  simp [iteration, scan_exit_of_owned tc rs _ h]

/-- C1: when the ready-set of an iteration contains an entry owned by the exit
guard condition (anywhere, next to any other entries), the iteration invokes no
handler and clears `active`; and the loop, at whatever iteration this happens
(any counters, any trace so far), ends "terminated" right after it, its trace
extended by that one wait only (no handler event, no further wait), for every
positive amount of fuel. -/
theorem exit_condition_preempts_all_handlers (tc : ThreadCtx) (rs : List Cond)
    (env : LoopEnv) (fuel nwait nload : Nat) (tr : List LoopEvent)
    (h : ∃ c ∈ rs, tc.gcond_exit_owns c = true)
    (hw : env.wait nwait = some rs) :
    (iteration tc rs).calls = [] ∧ (iteration tc rs).active = false ∧
    main_loop tc env (fuel + 1) true nwait nload tr =
      (LoopExit.terminated, tr ++ [LoopEvent.wait]) := by
  refine ⟨by rw [iteration_of_exit tc rs h], by rw [iteration_of_exit tc rs h], ?_⟩
  simp [main_loop, hw, iteration_of_exit tc rs h, iteration_assertion]

/-- Witness for C1: ready-set `[4, 9, 1]` where the exit condition owns 9, the
participant-info condition owns 4 and 1 is the participant reader; the running
flag stays true and fuel for more iterations is left. -/
theorem exit_condition_preempts_all_handlers_witness :
    (iteration ⟨some 1, some 2, some 3, fun c => c == 9, fun c => c == 4⟩ [4, 9, 1]).calls = [] ∧
    (iteration ⟨some 1, some 2, some 3, fun c => c == 9, fun c => c == 4⟩ [4, 9, 1]).active
      = false ∧
    main_loop ⟨some 1, some 2, some 3, fun c => c == 9, fun c => c == 4⟩
        ⟨true, fun _ => some [4, 9, 1], fun _ => true⟩ (5 + 1) true 0 1 []
      = (LoopExit.terminated, [] ++ [LoopEvent.wait]) :=
  exit_condition_preempts_all_handlers
    ⟨some 1, some 2, some 3, fun c => c == 9, fun c => c == 4⟩ [4, 9, 1]
    ⟨true, fun _ => some [4, 9, 1], fun _ => true⟩ 5 0 1 []
    ⟨9, by decide, by decide⟩ rfl

/-! ## Waitset teardown -/

@[simp] theorem Ret.after_ret (tr : List Call) (r : Ret) : (r.after tr).ret = r.ret := rfl

@[simp] theorem Ret.after_ctx (tr : List Call) (r : Ret) : (r.after tr).ctx = r.ctx := rfl

@[simp] theorem Ret.after_calls (tr : List Call) (r : Ret) :
    (r.after tr).calls = tr ++ r.calls := rfl

theorem delete_waitset_eq_teardown (env : Env) (ctx : Context) :
    rmw_connextdds_discovery_thread_delete_waitset env ctx =
      if ctx.discovery_thread_waitset = none then ⟨rmw_ret_t.RMW_RET_OK, ctx, []⟩
      else teardown env teardown_order ctx := by
  have hp : ∀ c : Context, delete_waitset_pub env c = teardown env [Source.publication] c := by
    intro c
    cases h : c.discovery_thread_cond_dcps_pub <;>
      simp [delete_waitset_pub, teardown, recorded, detach_ok, clear_record, h]
  have hs : ∀ c : Context, delete_waitset_sub env c =
      teardown env [Source.subscription, Source.publication] c := by
    intro c
    cases h : c.discovery_thread_cond_dcps_sub <;>
      simp [delete_waitset_sub, hp, teardown, recorded, detach_ok, clear_record, h]
  have hq : ∀ c : Context, delete_waitset_part env c =
      teardown env [Source.participant, Source.subscription, Source.publication] c := by
    intro c
    cases h : c.discovery_thread_cond_dcps_part <;>
      simp [delete_waitset_part, hs, teardown, recorded, detach_ok, clear_record, h]
  have hd : ∀ c : Context, delete_waitset_discinfo env c =
      teardown env [Source.partinfo, Source.participant, Source.subscription,
        Source.publication] c := by
    intro c
    cases h : c.discovery_thread_discinfo_cond <;>
      simp [delete_waitset_discinfo, hq, teardown, recorded, detach_ok, clear_record, h]
  cases h : ctx.discovery_thread_exit_cond <;>
    simp [rmw_connextdds_discovery_thread_delete_waitset, hd, teardown_order, teardown,
      recorded, detach_ok, clear_record, h]

theorem frame_refl (ctx : Context) : frame ctx ctx := by simp [frame]

theorem frame_trans {a b c : Context} (h1 : frame a b) (h2 : frame b c) : frame a c := by
  obtain ⟨h11, h12, h13, h14, h15, h16⟩ := h1
  obtain ⟨h21, h22, h23, h24, h25, h26⟩ := h2
  exact ⟨h21.trans h11, h22.trans h12, h23.trans h13, h24.trans h14, h25.trans h15,
    h26.trans h16⟩

theorem frame_clear_record (ctx : Context) (s : Source) : frame ctx (clear_record ctx s) := by
  cases s <;> simp [frame, clear_record]

theorem recorded_clear_record (ctx : Context) (s t : Source) :
    recorded (clear_record ctx s) t = (recorded ctx t && decide (t ≠ s)) := by
  cases s <;> cases t <;> simp [recorded, clear_record]

theorem recorded_attached_length_le (ctx : Context) : (recorded_attached ctx).length ≤ 5 := by
  unfold recorded_attached
  exact (List.length_filter_le _ _).trans (by simp [attach_order])

theorem size_dec_succ (n : Nat) (h : n < 8) : size_dec (n + 1) = n := by
  simp only [size_dec, SIZE_MOD]; omega

theorem size_inc_small (n : Nat) (h : n < 8) : size_inc n = n + 1 := by
  simp only [size_inc, SIZE_MOD]; omega

theorem recorded_attached_clear_record (ctx : Context) (s : Source)
    (h : recorded ctx s = true) :
    (recorded_attached ctx).length = (recorded_attached (clear_record ctx s)).length + 1 := by
  simp only [recorded_attached, attach_order, List.filter_cons, List.filter_nil,
    recorded_clear_record]
  cases s <;> simp [h] <;>
    cases recorded ctx Source.participant <;> cases recorded ctx Source.publication <;>
    cases recorded ctx Source.subscription <;> cases recorded ctx Source.partinfo <;>
    cases recorded ctx Source.exit <;> simp at h ⊢

theorem count_inv_clear_record (ctx : Context) (s : Source)
    (hinv : count_inv ctx) (h : recorded ctx s = true) : count_inv (clear_record ctx s) := by
  have hlen := recorded_attached_clear_record ctx s h
  have hle := recorded_attached_length_le ctx
  unfold count_inv at hinv ⊢
  have hsz : (clear_record ctx s).discovery_thread_waitset_size =
      size_dec ctx.discovery_thread_waitset_size := by cases s <;> rfl
  rw [hsz, hinv, hlen, size_dec_succ _ (by omega)]

theorem teardown_frame (env : Env) (l : List Source) (ctx : Context) :
    frame ctx (teardown env l ctx).ctx := by
  induction l generalizing ctx with
  | nil => simp [teardown, delete_waitset_finish, frame]; split_ifs <;> simp
  | cons s rest ih =>
    unfold teardown
    split_ifs
    · exact frame_refl ctx
    · exact frame_trans (frame_clear_record ctx s) (ih _)
    · exact ih ctx

theorem teardown_calls (env : Env) (l : List Source) (ctx : Context) :
    ∀ c ∈ (teardown env l ctx).calls, teardown_call c = true := by
  induction l generalizing ctx with
  | nil =>
    simp only [teardown, delete_waitset_finish]
    split_ifs <;> simp [teardown_call]
  | cons s rest ih =>
    unfold teardown
    split_ifs
    · simp [teardown_call]
    · intro c hc
      simp only [Ret.after_calls, List.singleton_append, List.mem_cons] at hc
      rcases hc with rfl | hc
      · rfl
      · exact ih _ c hc
    · exact ih ctx

theorem teardown_ret (env : Env) (l : List Source) (ctx : Context) :
    (teardown env l ctx).ret = rmw_ret_t.RMW_RET_OK ∨
    (teardown env l ctx).ret = rmw_ret_t.RMW_RET_ERROR := by
  induction l generalizing ctx with
  | nil => simp only [teardown, delete_waitset_finish]; split_ifs <;> simp
  | cons s rest ih =>
    unfold teardown
    split_ifs
    · simp
    · simpa using ih _
    · exact ih ctx

theorem teardown_count_inv (env : Env) (l : List Source) (ctx : Context)
    (hinv : count_inv ctx) : count_inv (teardown env l ctx).ctx := by
  induction l generalizing ctx with
  | nil =>
    simp only [teardown, delete_waitset_finish]
    split_ifs <;> simpa [count_inv, recorded_attached, recorded] using hinv
  | cons s rest ih =>
    unfold teardown
    split_ifs with h1 h2
    · exact hinv
    · simpa using ih _ (count_inv_clear_record ctx s hinv h1)
    · exact ih ctx hinv

theorem recorded_attached_eq_nil (ctx : Context) (h : ∀ s, recorded ctx s = false) :
    recorded_attached ctx = [] := by
  simp [recorded_attached, h]

theorem teardown_released (env : Env) (l : List Source) (ctx : Context)
    (hinv : count_inv ctx) (hl : ∀ s, recorded ctx s = true → s ∈ l) :
    Call.assertion_failed ∉ (teardown env l ctx).calls ∧
    ((teardown env l ctx).ret = rmw_ret_t.RMW_RET_OK → released (teardown env l ctx).ctx) := by
  induction l generalizing ctx with
  | nil =>
    have hrec : ∀ s, recorded ctx s = false := by
      intro s
      cases hs : recorded ctx s
      · rfl
      · exact absurd (hl s hs) (List.not_mem_nil s)
    have hnil := recorded_attached_eq_nil ctx hrec
    have hz : ctx.discovery_thread_waitset_size = 0 := by
      rw [hinv, hnil]; rfl
    simp only [teardown, delete_waitset_finish, hz, released, if_true]
    refine ⟨by simp, fun _ => ⟨trivial, ?_, trivial⟩⟩
    apply recorded_attached_eq_nil
    intro s
    have := hrec s
    cases s <;> simpa [recorded] using this
  | cons s rest ih =>
    unfold teardown
    split_ifs with h1 h2
    · simp
    · have hl1 : ∀ t, recorded (clear_record ctx s) t = true → t ∈ rest := by
        intro t ht
        rw [recorded_clear_record] at ht
        simp only [Bool.and_eq_true, decide_eq_true_eq] at ht
        rcases List.mem_cons.mp (hl t ht.1) with hts | hts
        · exact absurd hts ht.2
        · exact hts
      have := ih _ (count_inv_clear_record ctx s hinv h1) hl1
      simpa using this
    · have hl1 : ∀ t, recorded ctx t = true → t ∈ rest := by
        intro t ht
        rcases List.mem_cons.mp (hl t ht) with hts | hts
        · subst hts; exact absurd ht h1
        · exact hts
      exact ih ctx hinv hl1

theorem teardown_detached (env : Env) (l : List Source) (ctx : Context)
    (hok : detaches_ok env) (hl : l.Nodup) :
    (teardown env l ctx).ret = rmw_ret_t.RMW_RET_OK ∧
    detached_sources (teardown env l ctx).calls = l.filter (recorded ctx) := by
  induction l generalizing ctx with
  | nil =>
    simp only [teardown, delete_waitset_finish]
    split_ifs <;> simp [detached_sources]
  | cons s rest ih =>
    have hs : s ∉ rest := (List.nodup_cons.mp hl).1
    have hrest : rest.Nodup := (List.nodup_cons.mp hl).2
    unfold teardown
    split_ifs with h1 h2
    · rw [hok s] at h2; exact absurd h2 (by simp)
    · obtain ⟨ihr, ihd⟩ := ih (clear_record ctx s) hrest
      refine ⟨by simpa using ihr, ?_⟩
      have hf : rest.filter (recorded (clear_record ctx s)) = rest.filter (recorded ctx) := by
        apply List.filter_congr
        intro t ht
        rw [recorded_clear_record]
        have : t ≠ s := fun e => hs (e ▸ ht)
        simp [this]
      simp only [Ret.after_calls, detached_sources, List.filterMap_append] at ihd ⊢
      rw [ihd, hf]
      simp [List.filter_cons, h1]
    · obtain ⟨ihr, ihd⟩ := ih ctx hrest
      refine ⟨ihr, ?_⟩
      rw [ihd]
      simp [List.filter_cons, h1]

/-! ## delete_waitset -/

theorem teardown_order_nodup : teardown_order.Nodup := by decide

theorem mem_teardown_order (s : Source) : s ∈ teardown_order := by
  cases s <;> simp [teardown_order]

theorem teardown_order_perm : teardown_order.Perm attach_order := by decide

theorem delete_waitset_frame (env : Env) (ctx : Context) :
    frame ctx (rmw_connextdds_discovery_thread_delete_waitset env ctx).ctx := by
  rw [delete_waitset_eq_teardown]
  split_ifs
  · exact frame_refl ctx
  · exact teardown_frame env _ ctx

theorem delete_waitset_calls (env : Env) (ctx : Context) :
    ∀ c ∈ (rmw_connextdds_discovery_thread_delete_waitset env ctx).calls,
      teardown_call c = true := by
  rw [delete_waitset_eq_teardown]
  split_ifs
  · simp
  · exact teardown_calls env _ ctx

theorem delete_waitset_ret (env : Env) (ctx : Context) :
    (rmw_connextdds_discovery_thread_delete_waitset env ctx).ret = rmw_ret_t.RMW_RET_OK ∨
    (rmw_connextdds_discovery_thread_delete_waitset env ctx).ret = rmw_ret_t.RMW_RET_ERROR := by
  rw [delete_waitset_eq_teardown]
  split_ifs
  · simp
  · exact teardown_ret env _ ctx

theorem delete_waitset_count_inv (env : Env) (ctx : Context) (hinv : count_inv ctx) :
    count_inv (rmw_connextdds_discovery_thread_delete_waitset env ctx).ctx ∧
    Call.assertion_failed ∉ (rmw_connextdds_discovery_thread_delete_waitset env ctx).calls := by
  rw [delete_waitset_eq_teardown]
  split_ifs
  · exact ⟨hinv, by simp⟩
  · exact ⟨teardown_count_inv env _ ctx hinv,
      (teardown_released env _ ctx hinv (fun s _ => mem_teardown_order s)).1⟩

theorem delete_waitset_released (env : Env) (ctx : Context) (hinv : count_inv ctx)
    (hws : ctx.discovery_thread_waitset ≠ none)
    (hret : (rmw_connextdds_discovery_thread_delete_waitset env ctx).ret
      = rmw_ret_t.RMW_RET_OK) :
    released (rmw_connextdds_discovery_thread_delete_waitset env ctx).ctx := by
  rw [delete_waitset_eq_teardown, if_neg hws] at hret ⊢
  exact (teardown_released env _ ctx hinv (fun s _ => mem_teardown_order s)).2 hret

theorem delete_waitset_detached (env : Env) (ctx : Context) (hok : detaches_ok env)
    (hws : ctx.discovery_thread_waitset ≠ none) :
    (rmw_connextdds_discovery_thread_delete_waitset env ctx).ret = rmw_ret_t.RMW_RET_OK ∧
    detached_sources (rmw_connextdds_discovery_thread_delete_waitset env ctx).calls =
      teardown_order.filter (recorded ctx) := by
  rw [delete_waitset_eq_teardown, if_neg hws]
  exact teardown_detached env _ ctx hok teardown_order_nodup

theorem attached_sources_of_teardown (tr : List Call)
    (h : ∀ c ∈ tr, teardown_call c = true) : attached_sources tr = [] := by
  unfold attached_sources
  rw [List.filterMap_eq_nil_iff]
  intro c hc
  have := h c hc
  cases c <;> simp_all [teardown_call]

/-! ## create_waitset -/

theorem waitset_call_of_teardown (c : Call) (h : teardown_call c = true) :
    waitset_call c = true := by
  cases c <;> simp_all [waitset_call, teardown_call]

theorem create_waitset_cleanup_post (env : Env) (ctx : Context) (hinv : count_inv ctx)
    (hws : ctx.discovery_thread_waitset ≠ none) :
    count_inv (create_waitset_cleanup env ctx).ctx ∧
    Call.assertion_failed ∉ (create_waitset_cleanup env ctx).calls ∧
    frame ctx (create_waitset_cleanup env ctx).ctx ∧
    (∀ c ∈ (create_waitset_cleanup env ctx).calls, teardown_call c = true) ∧
    (create_waitset_cleanup env ctx).ret ≠ rmw_ret_t.RMW_RET_OK ∧
    (detaches_ok env →
      released (create_waitset_cleanup env ctx).ctx ∧
      (detached_sources (create_waitset_cleanup env ctx).calls).Perm (recorded_attached ctx)) := by
  have h1 := delete_waitset_count_inv env ctx hinv
  have h2 := delete_waitset_frame env ctx
  have h3 := delete_waitset_calls env ctx
  have h4 := delete_waitset_released env ctx hinv hws
  have h5 := delete_waitset_detached env ctx
  unfold create_waitset_cleanup
  by_cases hret : (rmw_connextdds_discovery_thread_delete_waitset env ctx).ret
      = rmw_ret_t.RMW_RET_OK
  · simp only [hret, ne_eq, not_true_eq_false, if_false]
    refine ⟨h1.1, h1.2, h2, h3, by simp, fun hok => ⟨h4 hret, ?_⟩⟩
    rw [(h5 hok hws).2]
    exact teardown_order_perm.filter _
  · simp only [ne_eq, hret, not_false_eq_true, if_true]
    refine ⟨h1.1, h1.2, h2, h3, trivial, fun hok => ?_⟩
    exact absurd (h5 hok hws).1 hret

theorem frame_set_record (ctx : Context) (c : Cond) (s : Source) :
    frame ctx (set_record ctx c s) := by
  cases s <;> simp [frame, set_record]

theorem waitset_set_record (ctx : Context) (c : Cond) (s : Source) :
    (set_record ctx c s).discovery_thread_waitset = ctx.discovery_thread_waitset := by
  cases s <;> rfl

theorem recorded_set_record (ctx : Context) (c : Cond) (s t : Source) :
    recorded (set_record ctx c s) t = (recorded ctx t || decide (t = s)) := by
  cases s <;> cases t <;> simp [recorded, set_record]

theorem recorded_attached_set_record (ctx : Context) (c : Cond) (s : Source)
    (h : recorded ctx s = false) :
    (recorded_attached (set_record ctx c s)).Perm (recorded_attached ctx ++ [s]) := by
  simp only [recorded_attached, attach_order, List.filter_cons, List.filter_nil,
    recorded_set_record]
  cases s <;> simp [h] <;>
    cases recorded ctx Source.participant <;> cases recorded ctx Source.publication <;>
    cases recorded ctx Source.subscription <;> cases recorded ctx Source.partinfo <;>
    cases recorded ctx Source.exit <;> simp at h ⊢ <;> decide

theorem count_inv_set_record (ctx : Context) (c : Cond) (s : Source)
    (hinv : count_inv ctx) (h : recorded ctx s = false) : count_inv (set_record ctx c s) := by
  have hlen := (recorded_attached_set_record ctx c s h).length_eq
  have hle := recorded_attached_length_le (set_record ctx c s)
  unfold count_inv at hinv ⊢
  have hsz : (set_record ctx c s).discovery_thread_waitset_size =
      size_inc ctx.discovery_thread_waitset_size := by cases s <;> rfl
  rw [List.length_append, List.length_singleton] at hlen
  rw [hsz, hinv, hlen, size_inc_small _ (by omega)]

theorem step_applies_frame {ctx ctx1 : Context} (h : frame ctx ctx1) (st : Step) :
    step_applies ctx1 st = step_applies ctx st := by
  obtain ⟨h1, h2, h3, _⟩ := h
  cases st <;> simp [step_applies, h1, h2, h3]

theorem detached_sources_append (a b : List Call) :
    detached_sources (a ++ b) = detached_sources a ++ detached_sources b := by
  simp [detached_sources, List.filterMap_append]

theorem attached_sources_append (a b : List Call) :
    attached_sources (a ++ b) = attached_sources a ++ attached_sources b := by
  simp [attached_sources, List.filterMap_append]

/-- A step of create_waitset fails in context `ctx1`, reached from `ctx` by the
calls `tr`: the result of the `cleanup:` path satisfies `CreatePost`. -/
theorem CreatePost_cleanup (env : Env) (ctx ctx1 : Context) (steps : List Step)
    (tr : List Call) (hinv : count_inv ctx1)
    (hws : ctx1.discovery_thread_waitset ≠ none) (hframe : frame ctx ctx1)
    (htr : ∀ c ∈ tr, waitset_call c = true) (hna : Call.assertion_failed ∉ tr)
    (hdet : detached_sources tr = [])
    (hrec : (recorded_attached ctx1).Perm (recorded_attached ctx ++ attached_sources tr)) :
    CreatePost env ctx steps ((create_waitset_cleanup env ctx1).after tr) := by
  obtain ⟨c1, c2, c3, c4, c5, c6⟩ := create_waitset_cleanup_post env ctx1 hinv hws
  refine ⟨c1, ?_, frame_trans hframe c3, ?_, ?_, ?_⟩
  · simp only [Ret.after_calls, List.mem_append, not_or]
    exact ⟨hna, c2⟩
  · intro c hc
    simp only [Ret.after_calls, List.mem_append] at hc
    rcases hc with hc | hc
    · exact htr c hc
    · exact waitset_call_of_teardown c (c4 c hc)
  · intro h
    exact absurd h c5
  · intro _ hok
    obtain ⟨hrel, hperm⟩ := c6 hok
    refine ⟨hrel, ?_⟩
    simp only [Ret.after_calls, detached_sources_append, attached_sources_append, hdet,
      List.nil_append, attached_sources_of_teardown _ c4, List.append_nil]
    exact hperm.trans hrec

/-- The steps `here` succeeded with calls `tr` and led from `ctx` to `ctx1`;
the rest of create_waitset, run from `ctx1`, satisfies `CreatePost`: so does
the whole. -/
theorem CreatePost_after (env : Env) (ctx ctx1 : Context) (here steps : List Step)
    (tr : List Call) (r : Ret) (hr : CreatePost env ctx1 steps r)
    (hws : ctx1.discovery_thread_waitset = ctx.discovery_thread_waitset)
    (hframe : frame ctx ctx1)
    (htr : ∀ c ∈ tr, waitset_call c = true) (hna : Call.assertion_failed ∉ tr)
    (hdet : detached_sources tr = [])
    (hrec : (recorded_attached ctx1).Perm (recorded_attached ctx ++ attached_sources tr))
    (hhere : ∀ st ∈ here, step_applies ctx st = true → step_ok env st = true) :
    CreatePost env ctx (here ++ steps) (r.after tr) := by
  obtain ⟨c1, c2, c3, c4, c5, c6⟩ := hr
  refine ⟨c1, ?_, frame_trans hframe c3, ?_, ?_, ?_⟩
  · simp only [Ret.after_calls, List.mem_append, not_or]
    exact ⟨hna, c2⟩
  · intro c hc
    simp only [Ret.after_calls, List.mem_append] at hc
    rcases hc with hc | hc
    · exact htr c hc
    · exact c4 c hc
  · intro h
    obtain ⟨hs, hw⟩ := c5 h
    refine ⟨?_, hw.trans hws⟩
    intro st hst happ
    rcases List.mem_append.mp hst with hst | hst
    · exact hhere st hst happ
    · exact hs st hst (by rw [step_applies_frame hframe]; exact happ)
  · intro h hok
    obtain ⟨hrel, hperm⟩ := c6 h hok
    refine ⟨hrel, ?_⟩
    simp only [Ret.after_calls, detached_sources_append, attached_sources_append, hdet,
      List.nil_append]
    refine hperm.trans ?_
    rw [← List.append_assoc]
    exact hrec.append_right _

theorem create_waitset_exit_post (env : Env) (ctx : Context) (hinv : count_inv ctx)
    (hws : ctx.discovery_thread_waitset ≠ none)
    (hrec : recorded ctx Source.exit = false) :
    CreatePost env ctx [Step.exit_attach] (create_waitset_exit env ctx) := by
  unfold create_waitset_exit
  cases h : env.exit_attach_ok
  · simp only [if_true]
    exact CreatePost_cleanup env ctx ctx _ _ hinv hws (frame_refl ctx)
      (by simp [waitset_call]) (by simp) (by simp [detached_sources])
      (by simp [attached_sources])
  · simp only [Bool.true_eq_false, if_false]
    have hset : count_inv (set_record ctx 0 Source.exit) :=
      count_inv_set_record ctx 0 Source.exit hinv hrec
    refine ⟨hset, by simp, frame_set_record ctx 0 Source.exit, by simp [waitset_call],
      fun _ => ⟨?_, rfl⟩, fun hne => absurd rfl hne⟩
    intro st hst _
    simp only [List.mem_singleton] at hst
    subst hst
    exact h

theorem create_waitset_partinfo_post (env : Env) (ctx : Context) (hinv : count_inv ctx)
    (hws : ctx.discovery_thread_waitset ≠ none)
    (hrec1 : recorded ctx Source.partinfo = false)
    (hrec2 : recorded ctx Source.exit = false) :
    CreatePost env ctx steps_partinfo (create_waitset_partinfo env ctx) := by
  unfold create_waitset_partinfo
  cases h1 : env.reset_statuses_ok
  · simp only [if_true]
    exact CreatePost_cleanup env ctx ctx _ _ hinv hws (frame_refl ctx)
      (by simp [waitset_call]) (by simp) (by simp [detached_sources])
      (by simp [attached_sources])
  · cases h2 : env.enable_statuses_ok
    · simp only [Bool.true_eq_false, if_false, if_true]
      exact CreatePost_cleanup env ctx ctx _ _ hinv hws (frame_refl ctx)
        (by simp [waitset_call]) (by simp) (by simp [detached_sources])
        (by simp [attached_sources])
    · cases h3 : env.partinfo_attach_ok
      · simp only [Bool.true_eq_false, if_false, if_true]
        exact CreatePost_cleanup env ctx ctx _ _ hinv hws (frame_refl ctx)
          (by simp [waitset_call]) (by simp) (by simp [detached_sources])
          (by simp [attached_sources])
      · simp only [Bool.true_eq_false, if_false]
        have hnext := create_waitset_exit_post env (set_record ctx 0 Source.partinfo)
          (count_inv_set_record ctx 0 Source.partinfo hinv hrec1)
          (by rw [waitset_set_record]; exact hws)
          (by rw [recorded_set_record, hrec2]; rfl)
        exact CreatePost_after env ctx (set_record ctx 0 Source.partinfo)
          [Step.partinfo_reset, Step.partinfo_enable, Step.partinfo_attach] _ _ _ hnext
          (waitset_set_record ctx 0 Source.partinfo) (frame_set_record ctx 0 Source.partinfo)
          (by simp [waitset_call]) (by simp) (by simp [detached_sources])
          (by simpa [attached_sources] using
            recorded_attached_set_record ctx 0 Source.partinfo hrec1)
          (by
            intro st hst _
            simp only [List.mem_cons, List.mem_singleton, List.not_mem_nil, or_false] at hst
            rcases hst with rfl | rfl | rfl
            · exact h1
            · exact h2
            · exact h3)

theorem create_waitset_sub_post (env : Env) (ctx : Context) (hinv : count_inv ctx)
    (hws : ctx.discovery_thread_waitset ≠ none)
    (hrec0 : recorded ctx Source.subscription = false)
    (hrec1 : recorded ctx Source.partinfo = false)
    (hrec2 : recorded ctx Source.exit = false) :
    CreatePost env ctx
      steps_sub
      (create_waitset_sub env ctx) := by
  show CreatePost env ctx ([Step.sub_config, Step.sub_attach] ++ steps_partinfo) _
  unfold create_waitset_sub
  by_cases hdr : ctx.dr_subscriptions = none
  · rw [if_neg (not_not.mpr hdr)]
    have hnext := create_waitset_partinfo_post env ctx hinv hws hrec1 hrec2
    have := CreatePost_after env ctx ctx [Step.sub_config, Step.sub_attach] steps_partinfo [] _ hnext rfl
      (frame_refl ctx) (by simp) (by simp) (by simp [detached_sources])
      (by simp [attached_sources])
      (by
        intro st hst happ
        simp only [List.mem_cons, List.mem_singleton, List.not_mem_nil, or_false] at hst
        rcases hst with rfl | rfl <;> simp [step_applies, hdr] at happ)
    simpa [Ret.after] using this
  · rw [if_pos hdr]
    simp only [rmw_connextdds_attach_reader_to_waitset]
    cases h1 : env.subscriptions.set_enabled_statuses_ok
    · simp only [if_true]
      exact CreatePost_cleanup env ctx ctx _ _ hinv hws (frame_refl ctx)
        (by simp [waitset_call]) (by simp) (by simp [detached_sources])
        (by simp [attached_sources])
    · cases h2 : env.subscriptions.attach_condition_ok
      · simp only [Bool.true_eq_false, if_false, if_true]
        exact CreatePost_cleanup env ctx ctx _ _ hinv hws (frame_refl ctx)
          (by simp [waitset_call]) (by simp) (by simp [detached_sources])
          (by simp [attached_sources])
      · simp only [Bool.true_eq_false, if_false]
        have hnext := create_waitset_partinfo_post env
          (set_record ctx env.subscriptions.cond Source.subscription)
          (count_inv_set_record ctx _ Source.subscription hinv hrec0)
          (by rw [waitset_set_record]; exact hws)
          (by rw [recorded_set_record, hrec1]; rfl) (by rw [recorded_set_record, hrec2]; rfl)
        exact CreatePost_after env ctx (set_record ctx env.subscriptions.cond Source.subscription)
          [Step.sub_config, Step.sub_attach] steps_partinfo _ _ hnext
          (waitset_set_record ctx _ Source.subscription) (frame_set_record ctx _ Source.subscription)
          (by simp [waitset_call]) (by simp) (by simp [detached_sources])
          (by simpa [attached_sources] using
            recorded_attached_set_record ctx env.subscriptions.cond Source.subscription hrec0)
          (by
            intro st hst _
            simp only [List.mem_cons, List.mem_singleton, List.not_mem_nil, or_false] at hst
            rcases hst with rfl | rfl
            · exact h1
            · exact h2)

theorem create_waitset_pub_post (env : Env) (ctx : Context) (hinv : count_inv ctx)
    (hws : ctx.discovery_thread_waitset ≠ none)
    (hrecp : recorded ctx Source.publication = false)
    (hrec0 : recorded ctx Source.subscription = false)
    (hrec1 : recorded ctx Source.partinfo = false)
    (hrec2 : recorded ctx Source.exit = false) :
    CreatePost env ctx
      steps_pub
      (create_waitset_pub env ctx) := by
  show CreatePost env ctx ([Step.pub_config, Step.pub_attach] ++ steps_sub) _
  unfold create_waitset_pub
  by_cases hdr : ctx.dr_publications = none
  · rw [if_neg (not_not.mpr hdr)]
    have hnext := create_waitset_sub_post env ctx hinv hws hrec0 hrec1 hrec2
    have := CreatePost_after env ctx ctx [Step.pub_config, Step.pub_attach] steps_sub [] _ hnext rfl
      (frame_refl ctx) (by simp) (by simp) (by simp [detached_sources])
      (by simp [attached_sources])
      (by
        intro st hst happ
        simp only [List.mem_cons, List.mem_singleton, List.not_mem_nil, or_false] at hst
        rcases hst with rfl | rfl <;> simp [step_applies, hdr] at happ)
    simpa [Ret.after] using this
  · rw [if_pos hdr]
    simp only [rmw_connextdds_attach_reader_to_waitset]
    cases h1 : env.publications.set_enabled_statuses_ok
    · simp only [if_true]
      exact CreatePost_cleanup env ctx ctx _ _ hinv hws (frame_refl ctx)
        (by simp [waitset_call]) (by simp) (by simp [detached_sources])
        (by simp [attached_sources])
    · cases h2 : env.publications.attach_condition_ok
      · simp only [Bool.true_eq_false, if_false, if_true]
        exact CreatePost_cleanup env ctx ctx _ _ hinv hws (frame_refl ctx)
          (by simp [waitset_call]) (by simp) (by simp [detached_sources])
          (by simp [attached_sources])
      · simp only [Bool.true_eq_false, if_false]
        have hnext := create_waitset_sub_post env
          (set_record ctx env.publications.cond Source.publication)
          (count_inv_set_record ctx _ Source.publication hinv hrecp)
          (by rw [waitset_set_record]; exact hws)
          (by rw [recorded_set_record, hrec0]; rfl) (by rw [recorded_set_record, hrec1]; rfl) (by rw [recorded_set_record, hrec2]; rfl)
        exact CreatePost_after env ctx (set_record ctx env.publications.cond Source.publication)
          [Step.pub_config, Step.pub_attach] steps_sub _ _ hnext
          (waitset_set_record ctx _ Source.publication) (frame_set_record ctx _ Source.publication)
          (by simp [waitset_call]) (by simp) (by simp [detached_sources])
          (by simpa [attached_sources] using
            recorded_attached_set_record ctx env.publications.cond Source.publication hrecp)
          (by
            intro st hst _
            simp only [List.mem_cons, List.mem_singleton, List.not_mem_nil, or_false] at hst
            rcases hst with rfl | rfl
            · exact h1
            · exact h2)

theorem create_waitset_part_post (env : Env) (ctx : Context) (hinv : count_inv ctx)
    (hws : ctx.discovery_thread_waitset ≠ none)
    (hrecq : recorded ctx Source.participant = false)
    (hrecp : recorded ctx Source.publication = false)
    (hrec0 : recorded ctx Source.subscription = false)
    (hrec1 : recorded ctx Source.partinfo = false)
    (hrec2 : recorded ctx Source.exit = false) :
    CreatePost env ctx
      steps_all
      (create_waitset_part env ctx) := by
  show CreatePost env ctx ([Step.part_config, Step.part_attach] ++ steps_pub) _
  unfold create_waitset_part
  by_cases hdr : ctx.dr_participants = none
  · rw [if_neg (not_not.mpr hdr)]
    have hnext := create_waitset_pub_post env ctx hinv hws hrecp hrec0 hrec1 hrec2
    have := CreatePost_after env ctx ctx [Step.part_config, Step.part_attach] steps_pub [] _ hnext rfl
      (frame_refl ctx) (by simp) (by simp) (by simp [detached_sources])
      (by simp [attached_sources])
      (by
        intro st hst happ
        simp only [List.mem_cons, List.mem_singleton, List.not_mem_nil, or_false] at hst
        rcases hst with rfl | rfl <;> simp [step_applies, hdr] at happ)
    simpa [Ret.after] using this
  · rw [if_pos hdr]
    simp only [rmw_connextdds_attach_reader_to_waitset]
    cases h1 : env.participants.set_enabled_statuses_ok
    · simp only [if_true]
      exact CreatePost_cleanup env ctx ctx _ _ hinv hws (frame_refl ctx)
        (by simp [waitset_call]) (by simp) (by simp [detached_sources])
        (by simp [attached_sources])
    · cases h2 : env.participants.attach_condition_ok
      · simp only [Bool.true_eq_false, if_false, if_true]
        exact CreatePost_cleanup env ctx ctx _ _ hinv hws (frame_refl ctx)
          (by simp [waitset_call]) (by simp) (by simp [detached_sources])
          (by simp [attached_sources])
      · simp only [Bool.true_eq_false, if_false]
        have hnext := create_waitset_pub_post env
          (set_record ctx env.participants.cond Source.participant)
          (count_inv_set_record ctx _ Source.participant hinv hrecq)
          (by rw [waitset_set_record]; exact hws)
          (by rw [recorded_set_record, hrecp]; rfl) (by rw [recorded_set_record, hrec0]; rfl) (by rw [recorded_set_record, hrec1]; rfl) (by rw [recorded_set_record, hrec2]; rfl)
        exact CreatePost_after env ctx (set_record ctx env.participants.cond Source.participant)
          [Step.part_config, Step.part_attach] steps_pub _ _ hnext
          (waitset_set_record ctx _ Source.participant) (frame_set_record ctx _ Source.participant)
          (by simp [waitset_call]) (by simp) (by simp [detached_sources])
          (by simpa [attached_sources] using
            recorded_attached_set_record ctx env.participants.cond Source.participant hrecq)
          (by
            intro st hst _
            simp only [List.mem_cons, List.mem_singleton, List.not_mem_nil, or_false] at hst
            rcases hst with rfl | rfl
            · exact h1
            · exact h2)

theorem clean_recorded (ctx : Context) (h : clean ctx) (s : Source) :
    recorded ctx s = false := by
  obtain ⟨_, h1, h2, h3, h4, h5, _⟩ := h
  cases s <;> simp [recorded, h1, h2, h3, h4, h5]

theorem clean_count_inv (ctx : Context) (h : clean ctx) : count_inv ctx := by
  unfold count_inv
  rw [recorded_attached_eq_nil ctx (clean_recorded ctx h), h.2.2.2.2.2.2.1]
  rfl

theorem create_waitset_post (env : Env) (ctx : Context) (hclean : clean ctx) :
    count_inv (rmw_connextdds_discovery_thread_create_waitset env ctx).ctx ∧
    Call.assertion_failed ∉ (rmw_connextdds_discovery_thread_create_waitset env ctx).calls ∧
    frame ctx (rmw_connextdds_discovery_thread_create_waitset env ctx).ctx ∧
    (∀ c ∈ (rmw_connextdds_discovery_thread_create_waitset env ctx).calls,
      waitset_call c = true) ∧
    ((rmw_connextdds_discovery_thread_create_waitset env ctx).ret = rmw_ret_t.RMW_RET_OK →
      env.waitset_new ≠ none ∧
      (∀ st ∈ steps_all, step_applies ctx st = true → step_ok env st = true) ∧
      (rmw_connextdds_discovery_thread_create_waitset env ctx).ctx.discovery_thread_waitset
        = env.waitset_new) ∧
    ((rmw_connextdds_discovery_thread_create_waitset env ctx).ret ≠ rmw_ret_t.RMW_RET_OK →
      detaches_ok env →
      released (rmw_connextdds_discovery_thread_create_waitset env ctx).ctx ∧
      (detached_sources (rmw_connextdds_discovery_thread_create_waitset env ctx).calls).Perm
        (attached_sources (rmw_connextdds_discovery_thread_create_waitset env ctx).calls)) := by
  have hrec := clean_recorded ctx hclean
  have hinv := clean_count_inv ctx hclean
  unfold rmw_connextdds_discovery_thread_create_waitset
  cases hw : env.waitset_new with
  | none =>
    have hr : ∀ s, recorded { ctx with discovery_thread_waitset := none } s = false := by
      intro s
      have := hrec s
      cases s <;> simpa [recorded] using this
    have hnil := recorded_attached_eq_nil _ hr
    simp only [if_true]
    refine ⟨?_, by simp, by simp [frame], by simp [waitset_call], by simp, ?_⟩
    · rw [count_inv, hnil]; exact hclean.2.2.2.2.2.2.1
    · intro _ _
      exact ⟨⟨hclean.2.2.2.2.2.2.1, hnil, rfl⟩, by simp [detached_sources, attached_sources]⟩
  | some w =>
    simp only [reduceCtorEq, if_false]
    have hr : ∀ s, recorded { ctx with discovery_thread_waitset := some w } s = false := by
      intro s
      have := hrec s
      cases s <;> simpa [recorded] using this
    have hnil := recorded_attached_eq_nil _ hr
    have hinv0 : count_inv { ctx with discovery_thread_waitset := some w } := by
      rw [count_inv, hnil]; exact hclean.2.2.2.2.2.2.1
    have hfr : frame ctx { ctx with discovery_thread_waitset := some w } := by simp [frame]
    obtain ⟨c1, c2, c3, c4, c5, c6⟩ :=
      create_waitset_part_post env { ctx with discovery_thread_waitset := some w } hinv0
        (by simp) (hr _) (hr _) (hr _) (hr _) (hr _)
    refine ⟨c1, by simpa using c2, frame_trans hfr c3, ?_, ?_, ?_⟩
    · intro c hc
      simp only [Ret.after_calls, List.singleton_append, List.mem_cons] at hc
      rcases hc with rfl | hc
      · rfl
      · exact c4 c hc
    · intro h
      obtain ⟨hs, hw1⟩ := c5 h
      refine ⟨by simp, ?_, hw1⟩
      intro st hst happ
      exact hs st hst (by rw [step_applies_frame hfr]; exact happ)
    · intro h hok
      obtain ⟨hrel, hperm⟩ := c6 h hok
      refine ⟨hrel, ?_⟩
      rw [hnil, List.nil_append] at hperm
      simpa [detached_sources_append, attached_sources_append, detached_sources,
        attached_sources] using hperm


/-! ## start and stop -/

theorem count_inv_of_eq (a b : Context) (hrec : ∀ s, recorded b s = recorded a s)
    (hsz : b.discovery_thread_waitset_size = a.discovery_thread_waitset_size)
    (h : count_inv a) : count_inv b := by
  unfold count_inv recorded_attached at *
  rw [hsz, h]
  congr 1
  exact List.filter_congr (fun s _ => (hrec s).symm)

theorem clean_set_gc (ctx : Context) (g : Option Nat) (h : clean ctx) :
    clean { ctx with listener_thread_gc := g } := h

theorem start_thread_failed_post (env : Env) (ctx : Context) (hinv : count_inv ctx) :
    count_inv (start_thread_failed env ctx).ctx ∧
    Call.assertion_failed ∉ (start_thread_failed env ctx).calls ∧
    (start_thread_failed env ctx).ret ≠ rmw_ret_t.RMW_RET_OK := by
  have hinv1 : count_inv { ctx with thread_is_running := false } :=
    count_inv_of_eq ctx _ (fun s => by cases s <;> rfl) rfl hinv
  obtain ⟨d1, d2⟩ := delete_waitset_count_inv env _ hinv1
  unfold start_thread_failed
  simp only [Ret.after_ret, Ret.after_ctx, Ret.after_calls]
  split_ifs with h1 h2
  · exact ⟨d1, by simpa using d2, h1⟩
  · exact ⟨d1, by simpa using d2, h2⟩
  · exact ⟨d1, by simpa using d2, by simp⟩

theorem start_count_inv (env : Env) (ctx : Context) (hclean : clean ctx) :
    count_inv (rmw_connextdds_discovery_thread_start env ctx).ctx ∧
    Call.assertion_failed ∉ (rmw_connextdds_discovery_thread_start env ctx).calls := by
  have hclean0 := clean_set_gc ctx env.create_guard_condition hclean
  obtain ⟨c1, c2, _, _, _, _⟩ := create_waitset_post env _ hclean0
  unfold rmw_connextdds_discovery_thread_start
  simp only [Ret.after_ret, Ret.after_ctx, Ret.after_calls]
  split_ifs with h1 h2 h3
  · exact ⟨clean_count_inv _ hclean0, by simp⟩
  · exact ⟨c1, by simpa using c2⟩
  · refine ⟨count_inv_of_eq _ _ (fun s => by cases s <;> rfl) rfl c1, by simpa using c2⟩
  · have hinv1 : count_inv
        { (rmw_connextdds_discovery_thread_create_waitset env
            { ctx with listener_thread_gc := env.create_guard_condition }).ctx with
          thread_is_running := true } :=
      count_inv_of_eq _ _ (fun s => by cases s <;> rfl) rfl c1
    obtain ⟨f1, f2, _⟩ := start_thread_failed_post env _ hinv1
    exact ⟨f1, by simpa using ⟨c2, f2⟩⟩

theorem stop_count_inv (env : Env) (ctx : Context) (hinv : count_inv ctx) :
    count_inv (rmw_connextdds_discovery_thread_stop env ctx).ctx ∧
    Call.assertion_failed ∉ (rmw_connextdds_discovery_thread_stop env ctx).calls := by
  have hinv0 : count_inv { ctx with thread_is_running := false } :=
    count_inv_of_eq ctx _ (fun s => by cases s <;> rfl) rfl hinv
  have hinv1 : count_inv
      { ctx with thread_is_running := false, listener_thread_joinable := false } :=
    count_inv_of_eq ctx _ (fun s => by cases s <;> rfl) rfl hinv
  obtain ⟨d1, d2⟩ := delete_waitset_count_inv env _ hinv1
  unfold rmw_connextdds_discovery_thread_stop
  simp only [Ret.after_ret, Ret.after_ctx, Ret.after_calls]
  split_ifs
  · exact ⟨hinv0, by simp⟩
  · exact ⟨hinv0, by simp⟩
  · exact ⟨d1, by simpa using d2⟩
  · exact ⟨d1, by simpa using d2⟩
  · exact ⟨d1, by simpa using d2⟩
  · exact ⟨hinv0, by simp⟩

theorem run_deletes_count_inv (envs : List Env) (ctx : Context) (hinv : count_inv ctx) :
    ∀ r ∈ run_deletes envs ctx, count_inv r.ctx ∧ Call.assertion_failed ∉ r.calls := by
  induction envs generalizing ctx with
  | nil => simp [run_deletes]
  | cons e es ih =>
    intro r hr
    simp only [run_deletes, List.mem_cons] at hr
    rcases hr with rfl | hr
    · exact delete_waitset_count_inv e ctx hinv
    · exact ih _ (delete_waitset_count_inv e ctx hinv).1 r hr

theorem run_stops_count_inv (envs : List Env) (ctx : Context) (hinv : count_inv ctx) :
    ∀ r ∈ run_stops envs ctx, count_inv r.ctx ∧ Call.assertion_failed ∉ r.calls := by
  induction envs generalizing ctx with
  | nil => simp [run_stops]
  | cons e es ih =>
    intro r hr
    simp only [run_stops, List.mem_cons] at hr
    rcases hr with rfl | hr
    · exact stop_count_inv e ctx hinv
    · exact ih _ (stop_count_inv e ctx hinv).1 r hr

/-- C10: registered-count invariant.  From a clean context, after
create_waitset returns (whatever attach or detach calls failed), and after
each of any number of later delete_waitset calls with arbitrary outcomes, the
counter equals the number of sources recorded as attached, and the assertion of
line 254 never fails; the same holds after start and after each of any number
of later stop calls; and delete_waitset preserves the invariant from any
context in which it holds, without an assertion failure. -/
theorem registered_count_invariant (env : Env) (ctx : Context) (envs : List Env)
    (hclean : clean ctx) :
    (count_inv (rmw_connextdds_discovery_thread_create_waitset env ctx).ctx ∧
      Call.assertion_failed ∉ (rmw_connextdds_discovery_thread_create_waitset env ctx).calls) ∧
    (∀ r ∈ run_deletes envs (rmw_connextdds_discovery_thread_create_waitset env ctx).ctx,
      count_inv r.ctx ∧ Call.assertion_failed ∉ r.calls) ∧
    (count_inv (rmw_connextdds_discovery_thread_start env ctx).ctx ∧
      Call.assertion_failed ∉ (rmw_connextdds_discovery_thread_start env ctx).calls) ∧
    (∀ r ∈ run_stops envs (rmw_connextdds_discovery_thread_start env ctx).ctx,
      count_inv r.ctx ∧ Call.assertion_failed ∉ r.calls) ∧
    (∀ (e : Env) (c : Context), count_inv c →
      count_inv (rmw_connextdds_discovery_thread_delete_waitset e c).ctx ∧
      Call.assertion_failed ∉ (rmw_connextdds_discovery_thread_delete_waitset e c).calls) := by
  obtain ⟨c1, c2, _⟩ := create_waitset_post env ctx hclean
  obtain ⟨s1, s2⟩ := start_count_inv env ctx hclean
  exact ⟨⟨c1, c2⟩, run_deletes_count_inv envs _ c1, ⟨s1, s2⟩, run_stops_count_inv envs _ s1,
    fun e c h => delete_waitset_count_inv e c h⟩

theorem clean_ctx_part_pub : clean ctx_part_pub := by simp [clean, ctx_part_pub]

theorem clean_ctx_pub : clean ctx_pub := by simp [clean, ctx_pub, ctx_part_pub]

theorem clean_ctx_none : clean ctx_none := by simp [clean, ctx_none, ctx_pub, ctx_part_pub]

theorem clean_ctx_all : clean ctx_all := by simp [clean, ctx_all, ctx_part_pub]

theorem detaches_ok_env_ok : detaches_ok env_ok := by
  intro s; cases s <;> rfl

theorem all_ok_env_ok : all_ok env_ok := by
  simp [all_ok, env_ok, detaches_ok_env_ok]
  exact detaches_ok_env_ok

/-- Witness for C10: the three readers are enabled, the attach of the exit
condition fails and so does the detach of the participant-info condition during
the unwinding; two more delete_waitset / stop calls follow. -/
theorem registered_count_invariant_witness :
    clean ctx_all ∧
    ((count_inv (rmw_connextdds_discovery_thread_create_waitset
          { env_ok with exit_attach_ok := false, partinfo_detach_ok := false } ctx_all).ctx ∧
      Call.assertion_failed ∉ (rmw_connextdds_discovery_thread_create_waitset
          { env_ok with exit_attach_ok := false, partinfo_detach_ok := false } ctx_all).calls) ∧
    (∀ r ∈ run_deletes [{ env_ok with sub_detach_ok := false }, env_ok]
        (rmw_connextdds_discovery_thread_create_waitset
          { env_ok with exit_attach_ok := false, partinfo_detach_ok := false } ctx_all).ctx,
      count_inv r.ctx ∧ Call.assertion_failed ∉ r.calls) ∧
    (count_inv (rmw_connextdds_discovery_thread_start
          { env_ok with exit_attach_ok := false, partinfo_detach_ok := false } ctx_all).ctx ∧
      Call.assertion_failed ∉ (rmw_connextdds_discovery_thread_start
          { env_ok with exit_attach_ok := false, partinfo_detach_ok := false } ctx_all).calls) ∧
    (∀ r ∈ run_stops [{ env_ok with sub_detach_ok := false }, env_ok]
        (rmw_connextdds_discovery_thread_start
          { env_ok with exit_attach_ok := false, partinfo_detach_ok := false } ctx_all).ctx,
      count_inv r.ctx ∧ Call.assertion_failed ∉ r.calls) ∧
    (∀ (e : Env) (c : Context), count_inv c →
      count_inv (rmw_connextdds_discovery_thread_delete_waitset e c).ctx ∧
      Call.assertion_failed ∉ (rmw_connextdds_discovery_thread_delete_waitset e c).calls)) :=
  ⟨clean_ctx_all,
    registered_count_invariant
      { env_ok with exit_attach_ok := false, partinfo_detach_ok := false } ctx_all
      [{ env_ok with sub_detach_ok := false }, env_ok] clean_ctx_all⟩

theorem mem_steps_all (st : Step) : st ∈ steps_all := by
  cases st <;> simp [steps_all, steps_pub, steps_sub, steps_partinfo]

/-- C4: from a clean context, with a guard condition and a waitset allocated
and the detach calls of the unwinding succeeding, if any step of waitset
construction that applies to the context (configuring or attaching an enabled
reader's condition; resetting, enabling or attaching the participant-info
condition; attaching the exit condition) fails, then start returns an error,
the sources detached are exactly those that had been attached, the counter is
0, nothing is recorded as attached, the waitset is null, the running flag is
false and was never stored true, and no thread creation was attempted. -/
theorem start_failure_unwinds (env : Env) (ctx : Context) (st : Step)
    (hclean : clean ctx) (hgc : env.create_guard_condition ≠ none)
    (hdet : detaches_ok env)
    (happ : step_applies ctx st = true) (hfail : step_ok env st = false) :
    (rmw_connextdds_discovery_thread_start env ctx).ret ≠ rmw_ret_t.RMW_RET_OK ∧
    (detached_sources (rmw_connextdds_discovery_thread_start env ctx).calls).Perm
      (attached_sources (rmw_connextdds_discovery_thread_start env ctx).calls) ∧
    (rmw_connextdds_discovery_thread_start env ctx).ctx.discovery_thread_waitset_size = 0 ∧
    recorded_attached (rmw_connextdds_discovery_thread_start env ctx).ctx = [] ∧
    (rmw_connextdds_discovery_thread_start env ctx).ctx.discovery_thread_waitset = none ∧
    (rmw_connextdds_discovery_thread_start env ctx).ctx.thread_is_running = false ∧
    Call.running_store true ∉ (rmw_connextdds_discovery_thread_start env ctx).calls ∧
    (∀ ok, Call.thread_create ok ∉ (rmw_connextdds_discovery_thread_start env ctx).calls) ∧
    (rmw_connextdds_discovery_thread_start env ctx).ctx.listener_thread_joinable = false := by
  have hclean0 := clean_set_gc ctx env.create_guard_condition hclean
  obtain ⟨_, _, c3, c4, c5, c6⟩ := create_waitset_post env _ hclean0
  have hret : (rmw_connextdds_discovery_thread_create_waitset env
      { ctx with listener_thread_gc := env.create_guard_condition }).ret
      ≠ rmw_ret_t.RMW_RET_OK := by
    intro h
    have := (c5 h).2.1 st (mem_steps_all st) happ
    rw [hfail] at this
    exact absurd this (by simp)
  obtain ⟨⟨r1, r2, r3⟩, hperm⟩ := c6 hret hdet
  obtain ⟨_, _, _, _, f5, f6⟩ := c3
  have hstart : rmw_connextdds_discovery_thread_start env ctx =
      (rmw_connextdds_discovery_thread_create_waitset env
        { ctx with listener_thread_gc := env.create_guard_condition }).after
        [Call.create_guard_condition env.create_guard_condition] := by
    unfold rmw_connextdds_discovery_thread_start
    simp only [Ret.after_ret]
    rw [if_neg hgc, if_pos hret]
  rw [hstart]
  simp only [Ret.after_ret, Ret.after_ctx, Ret.after_calls]
  refine ⟨hret, ?_, r1, r2, r3, ?_, ?_, ?_, ?_⟩
  · simpa [detached_sources_append, attached_sources_append, detached_sources,
      attached_sources] using hperm
  · rw [f5]; exact hclean.2.2.2.2.2.2.2.1
  · intro hmem
    simp only [List.singleton_append, List.mem_cons, reduceCtorEq, false_or] at hmem
    have := c4 _ hmem
    simp [waitset_call, teardown_call] at this
  · intro ok hmem
    simp only [List.singleton_append, List.mem_cons, reduceCtorEq, false_or] at hmem
    have := c4 _ hmem
    simp [waitset_call, teardown_call] at this
  · rw [f6]; exact hclean.2.2.2.2.2.2.2.2

/-- Witness for C4: participants and publications enabled, the attach of the
third source (the participant-info condition) fails. -/
theorem start_failure_unwinds_witness :
    clean ctx_part_pub ∧
    (rmw_connextdds_discovery_thread_start
      { env_ok with partinfo_attach_ok := false } ctx_part_pub).ret ≠ rmw_ret_t.RMW_RET_OK ∧
    (detached_sources (rmw_connextdds_discovery_thread_start
      { env_ok with partinfo_attach_ok := false } ctx_part_pub).calls).Perm
      (attached_sources (rmw_connextdds_discovery_thread_start
        { env_ok with partinfo_attach_ok := false } ctx_part_pub).calls) ∧
    (rmw_connextdds_discovery_thread_start
      { env_ok with partinfo_attach_ok := false } ctx_part_pub).ctx.discovery_thread_waitset_size
      = 0 ∧
    recorded_attached (rmw_connextdds_discovery_thread_start
      { env_ok with partinfo_attach_ok := false } ctx_part_pub).ctx = [] ∧
    (rmw_connextdds_discovery_thread_start
      { env_ok with partinfo_attach_ok := false } ctx_part_pub).ctx.discovery_thread_waitset
      = none ∧
    (rmw_connextdds_discovery_thread_start
      { env_ok with partinfo_attach_ok := false } ctx_part_pub).ctx.thread_is_running = false ∧
    Call.running_store true ∉ (rmw_connextdds_discovery_thread_start
      { env_ok with partinfo_attach_ok := false } ctx_part_pub).calls ∧
    (∀ ok, Call.thread_create ok ∉ (rmw_connextdds_discovery_thread_start
      { env_ok with partinfo_attach_ok := false } ctx_part_pub).calls) ∧
    (rmw_connextdds_discovery_thread_start
      { env_ok with partinfo_attach_ok := false } ctx_part_pub).ctx.listener_thread_joinable
      = false :=
  ⟨clean_ctx_part_pub,
    start_failure_unwinds { env_ok with partinfo_attach_ok := false } ctx_part_pub
      Step.partinfo_attach clean_ctx_part_pub (by decide)
      (by intro s; cases s <;> rfl) rfl rfl⟩


theorem start_thread_failed_ret (env : Env) (ctx : Context) :
    (start_thread_failed env ctx).ret ≠ rmw_ret_t.RMW_RET_OK := by
  unfold start_thread_failed
  simp only [Ret.after_ret, Ret.after_ctx, Ret.after_calls]
  split_ifs with h1 h2
  · exact h1
  · exact h2
  · simp

theorem start_ok_running (env : Env) (ctx : Context)
    (h : (rmw_connextdds_discovery_thread_start env ctx).ret = rmw_ret_t.RMW_RET_OK) :
    (rmw_connextdds_discovery_thread_start env ctx).ctx.thread_is_running = true := by
  unfold rmw_connextdds_discovery_thread_start at h ⊢
  simp only [Ret.after_ret, Ret.after_ctx, Ret.after_calls] at h ⊢
  split_ifs at h ⊢ with h1 h2 h3
  all_goals first
    | rfl
    | exact absurd h h2
    | exact absurd h (start_thread_failed_ret env _)

theorem start_ok_post (env : Env) (ctx : Context) (hclean : clean ctx)
    (h : (rmw_connextdds_discovery_thread_start env ctx).ret = rmw_ret_t.RMW_RET_OK) :
    count_inv (rmw_connextdds_discovery_thread_start env ctx).ctx ∧
    (rmw_connextdds_discovery_thread_start env ctx).ctx.discovery_thread_waitset ≠ none := by
  refine ⟨(start_count_inv env ctx hclean).1, ?_⟩
  have hclean0 := clean_set_gc ctx env.create_guard_condition hclean
  obtain ⟨_, _, _, _, c5, _⟩ := create_waitset_post env _ hclean0
  unfold rmw_connextdds_discovery_thread_start at h ⊢
  simp only [Ret.after_ret, Ret.after_ctx, Ret.after_calls] at h ⊢
  split_ifs at h ⊢ with h1 h2 h3
  all_goals first
    | exact absurd h h2
    | exact absurd h (start_thread_failed_ret env _)
    | (have hc := c5 (not_not.mp h2)
       show (rmw_connextdds_discovery_thread_create_waitset env _).ctx.discovery_thread_waitset
         ≠ none
       rw [hc.2.2]
       exact hc.1)

theorem stop_of_not_running (env : Env) (ctx : Context) (h : ctx.thread_is_running = false) :
    rmw_connextdds_discovery_thread_stop env ctx =
      ⟨rmw_ret_t.RMW_RET_OK, ctx, [Call.running_exchange false]⟩ := by
  unfold rmw_connextdds_discovery_thread_stop
  simp only [h, Bool.false_eq_true, if_false]
  congr 1
  rw [← h]

theorem trigger_count_of_teardown (tr : List Call)
    (h : ∀ c ∈ tr, teardown_call c = true) : trigger_count tr = 0 := by
  unfold trigger_count
  rw [List.countP_eq_zero]
  intro c hc
  have := h c hc
  cases c <;> simp_all [teardown_call]

/-- What a successful stop on a running context did. -/
theorem stop_ok_of_running (env : Env) (ctx : Context) (hrun : ctx.thread_is_running = true)
    (h : (rmw_connextdds_discovery_thread_stop env ctx).ret = rmw_ret_t.RMW_RET_OK) :
    (rmw_connextdds_discovery_thread_delete_waitset env
      { ctx with thread_is_running := false, listener_thread_joinable := false }).ret
      = rmw_ret_t.RMW_RET_OK ∧
    (rmw_connextdds_discovery_thread_stop env ctx).ctx =
      (rmw_connextdds_discovery_thread_delete_waitset env
        { ctx with thread_is_running := false, listener_thread_joinable := false }).ctx ∧
    trigger_count (rmw_connextdds_discovery_thread_stop env ctx).calls = 1 := by
  have hc := delete_waitset_calls env
    { ctx with thread_is_running := false, listener_thread_joinable := false }
  have ht := trigger_count_of_teardown _ hc
  unfold rmw_connextdds_discovery_thread_stop at h ⊢
  simp only [hrun, if_true, Ret.after_ret, Ret.after_ctx, Ret.after_calls] at h ⊢
  split_ifs at h ⊢ with h1 h2 h3 h4
  all_goals first
    | exact absurd h h1
    | exact absurd h h3
    | exact absurd h h4
    | (refine ⟨not_not.mp h3, rfl, ?_⟩
       unfold trigger_count at ht ⊢
       simp [List.countP_append, List.countP_cons, ht])

theorem stop_ok_released (env : Env) (ctx : Context) (hinv : count_inv ctx)
    (hws : ctx.discovery_thread_waitset ≠ none) (hrun : ctx.thread_is_running = true)
    (h : (rmw_connextdds_discovery_thread_stop env ctx).ret = rmw_ret_t.RMW_RET_OK) :
    released (rmw_connextdds_discovery_thread_stop env ctx).ctx ∧
    (rmw_connextdds_discovery_thread_stop env ctx).ctx.thread_is_running = false := by
  obtain ⟨h1, h2, _⟩ := stop_ok_of_running env ctx hrun h
  have hinv1 : count_inv
      { ctx with thread_is_running := false, listener_thread_joinable := false } :=
    count_inv_of_eq ctx _ (fun s => by cases s <;> rfl) rfl hinv
  rw [h2]
  exact ⟨delete_waitset_released env _ hinv1 hws h1, (delete_waitset_frame env _).2.2.2.2.1⟩

theorem run_stops_of_not_running (envs : List Env) (ctx : Context)
    (h : ctx.thread_is_running = false) :
    ∀ r ∈ run_stops envs ctx, r = ⟨rmw_ret_t.RMW_RET_OK, ctx, [Call.running_exchange false]⟩ := by
  induction envs with
  | nil => simp [run_stops]
  | cons e es ih =>
    intro r hr
    simp only [run_stops, List.mem_cons, stop_of_not_running e ctx h] at hr
    rcases hr with rfl | hr
    · rfl
    · exact ih r hr

/-- C5 as amended: after a successful start from a clean context, for every
sequence of stop calls with arbitrary outcomes of the external calls, if the
first stop call returns RMW_RET_OK then every stop call of the sequence returns
RMW_RET_OK and, when it returns, the counter is 0, no source is recorded as
attached and the waitset is null. -/
theorem first_stop_success_releases (env0 e : Env) (es : List Env) (ctx : Context)
    (hclean : clean ctx)
    (hstart : (rmw_connextdds_discovery_thread_start env0 ctx).ret = rmw_ret_t.RMW_RET_OK)
    (hfirst : (rmw_connextdds_discovery_thread_stop e
      (rmw_connextdds_discovery_thread_start env0 ctx).ctx).ret = rmw_ret_t.RMW_RET_OK) :
    ∀ r ∈ run_stops (e :: es) (rmw_connextdds_discovery_thread_start env0 ctx).ctx,
      r.ret = rmw_ret_t.RMW_RET_OK ∧ released r.ctx := by
  obtain ⟨hinv, hws⟩ := start_ok_post env0 ctx hclean hstart
  have hrun := start_ok_running env0 ctx hstart
  obtain ⟨hrel, hnr⟩ := stop_ok_released e _ hinv hws hrun hfirst
  intro r hr
  simp only [run_stops, List.mem_cons] at hr
  rcases hr with rfl | hr
  · exact ⟨hfirst, hrel⟩
  · rw [run_stops_of_not_running es _ hnr r hr]
    exact ⟨rfl, hrel⟩

/-- Witness for C5 as amended: only the publications reader is enabled; the
first stop succeeds, the two later ones are given failing environments. -/
theorem first_stop_success_releases_witness :
    clean ctx_pub ∧
    (rmw_connextdds_discovery_thread_start env_ok ctx_pub).ret = rmw_ret_t.RMW_RET_OK ∧
    (rmw_connextdds_discovery_thread_stop env_ok
      (rmw_connextdds_discovery_thread_start env_ok ctx_pub).ctx).ret = rmw_ret_t.RMW_RET_OK ∧
    ∀ r ∈ run_stops
        (env_ok :: [{ env_ok with trigger_rc := rmw_ret_t.RMW_RET_ERROR },
                    { env_ok with thread_join_ok := false }])
        (rmw_connextdds_discovery_thread_start env_ok ctx_pub).ctx,
      r.ret = rmw_ret_t.RMW_RET_OK ∧ released r.ctx :=
  ⟨clean_ctx_pub, by decide, by decide,
    first_stop_success_releases env_ok env_ok
      [{ env_ok with trigger_rc := rmw_ret_t.RMW_RET_ERROR },
       { env_ok with thread_join_ok := false }] ctx_pub clean_ctx_pub
      (by decide) (by decide)⟩

/-- Counterexample to C5 as stated: only the publications reader is enabled
and start succeeds; the first stop fails because the trigger of the guard
condition fails; the second stop returns RMW_RET_OK although the counter is
still 3, the three sources are still recorded as attached and the waitset
still exists. -/
theorem stop_success_without_release :
    (rmw_connextdds_discovery_thread_start env_ok ctx_pub).ret = rmw_ret_t.RMW_RET_OK ∧
    (run_stops [{ env_ok with trigger_rc := rmw_ret_t.RMW_RET_ERROR }, env_ok]
        (rmw_connextdds_discovery_thread_start env_ok ctx_pub).ctx).map (fun r => r.ret)
      = [rmw_ret_t.RMW_RET_ERROR, rmw_ret_t.RMW_RET_OK] ∧
    (run_stops [{ env_ok with trigger_rc := rmw_ret_t.RMW_RET_ERROR }, env_ok]
        (rmw_connextdds_discovery_thread_start env_ok ctx_pub).ctx).map
        (fun r => (r.ctx.discovery_thread_waitset_size, recorded_attached r.ctx,
          r.ctx.discovery_thread_waitset))
      = [(3, [Source.publication, Source.partinfo, Source.exit], some 1),
         (3, [Source.publication, Source.partinfo, Source.exit], some 1)] := by
  decide

/-- C6: after a successful start and a first stop that returns RMW_RET_OK, a
second stop returns RMW_RET_OK, leaves the context unchanged and does nothing
but the atomic exchange on the running flag (which reads false): no trigger,
join, detach or destroy; over the two stop calls the guard condition is
triggered exactly once.  More generally, stop on any context whose running flag
is false returns RMW_RET_OK with the context unchanged and no external call. -/
theorem stop_idempotent (env0 env1 env2 : Env) (ctx : Context)
    (hstart : (rmw_connextdds_discovery_thread_start env0 ctx).ret = rmw_ret_t.RMW_RET_OK)
    (hstop : (rmw_connextdds_discovery_thread_stop env1
      (rmw_connextdds_discovery_thread_start env0 ctx).ctx).ret = rmw_ret_t.RMW_RET_OK) :
    rmw_connextdds_discovery_thread_stop env2
        (rmw_connextdds_discovery_thread_stop env1
          (rmw_connextdds_discovery_thread_start env0 ctx).ctx).ctx =
      ⟨rmw_ret_t.RMW_RET_OK,
       (rmw_connextdds_discovery_thread_stop env1
          (rmw_connextdds_discovery_thread_start env0 ctx).ctx).ctx,
       [Call.running_exchange false]⟩ ∧
    trigger_count
      ((rmw_connextdds_discovery_thread_stop env1
          (rmw_connextdds_discovery_thread_start env0 ctx).ctx).calls ++
       (rmw_connextdds_discovery_thread_stop env2
          (rmw_connextdds_discovery_thread_stop env1
            (rmw_connextdds_discovery_thread_start env0 ctx).ctx).ctx).calls) = 1 ∧
    (∀ (e : Env) (c : Context), c.thread_is_running = false →
      rmw_connextdds_discovery_thread_stop e c =
        ⟨rmw_ret_t.RMW_RET_OK, c, [Call.running_exchange false]⟩) := by
  have hrun := start_ok_running env0 ctx hstart
  obtain ⟨_, h2, h3⟩ := stop_ok_of_running env1 _ hrun hstop
  have hnr : (rmw_connextdds_discovery_thread_stop env1
      (rmw_connextdds_discovery_thread_start env0 ctx).ctx).ctx.thread_is_running = false := by
    rw [h2]; exact (delete_waitset_frame env1 _).2.2.2.2.1
  have h4 := stop_of_not_running env2 _ hnr
  refine ⟨h4, ?_, fun e c hc => stop_of_not_running e c hc⟩
  rw [h4]
  unfold trigger_count at h3 ⊢
  simp [List.countP_append, h3]

/-- Witness for C6: the three readers are enabled and every call succeeds. -/
theorem stop_idempotent_witness :
    (rmw_connextdds_discovery_thread_start env_ok ctx_all).ret = rmw_ret_t.RMW_RET_OK ∧
    (rmw_connextdds_discovery_thread_stop env_ok
      (rmw_connextdds_discovery_thread_start env_ok ctx_all).ctx).ret = rmw_ret_t.RMW_RET_OK ∧
    (rmw_connextdds_discovery_thread_stop env_ok
        (rmw_connextdds_discovery_thread_stop env_ok
          (rmw_connextdds_discovery_thread_start env_ok ctx_all).ctx).ctx =
      ⟨rmw_ret_t.RMW_RET_OK,
       (rmw_connextdds_discovery_thread_stop env_ok
          (rmw_connextdds_discovery_thread_start env_ok ctx_all).ctx).ctx,
       [Call.running_exchange false]⟩ ∧
    trigger_count
      ((rmw_connextdds_discovery_thread_stop env_ok
          (rmw_connextdds_discovery_thread_start env_ok ctx_all).ctx).calls ++
       (rmw_connextdds_discovery_thread_stop env_ok
          (rmw_connextdds_discovery_thread_stop env_ok
            (rmw_connextdds_discovery_thread_start env_ok ctx_all).ctx).ctx).calls) = 1 ∧
    (∀ (e : Env) (c : Context), c.thread_is_running = false →
      rmw_connextdds_discovery_thread_stop e c =
        ⟨rmw_ret_t.RMW_RET_OK, c, [Call.running_exchange false]⟩)) :=
  ⟨by decide, by decide, stop_idempotent env_ok env_ok env_ok ctx_all (by decide) (by decide)⟩


/-- Counterexample to C8 as stated: with the participants and publications
readers enabled and every call succeeding, start attaches participant,
publication, participant-info, exit, and stop detaches exit, participant-info,
participant, publication, which is not the reverse of the attach order. -/
theorem detach_order_not_reverse :
    attached_sources (rmw_connextdds_discovery_thread_start env_ok ctx_part_pub).calls =
      [Source.participant, Source.publication, Source.partinfo, Source.exit] ∧
    detached_sources (rmw_connextdds_discovery_thread_stop env_ok
        (rmw_connextdds_discovery_thread_start env_ok ctx_part_pub).ctx).calls =
      [Source.exit, Source.partinfo, Source.participant, Source.publication] ∧
    detached_sources (rmw_connextdds_discovery_thread_stop env_ok
        (rmw_connextdds_discovery_thread_start env_ok ctx_part_pub).ctx).calls ≠
      (attached_sources
        (rmw_connextdds_discovery_thread_start env_ok ctx_part_pub).calls).reverse := by
  decide

theorem teardown_filter_eq_reverse (ctx : Context)
    (h : recorded ctx Source.participant = false ∨
      (recorded ctx Source.publication = false ∧ recorded ctx Source.subscription = false)) :
    teardown_order.filter (recorded ctx) = (recorded_attached ctx).reverse := by
  simp only [recorded_attached, attach_order, teardown_order, List.filter_cons, List.filter_nil]
  generalize recorded ctx Source.participant = a at h ⊢
  generalize recorded ctx Source.publication = b at h ⊢
  generalize recorded ctx Source.subscription = c at h ⊢
  generalize recorded ctx Source.partinfo = d at h ⊢
  generalize recorded ctx Source.exit = e at h ⊢
  revert h
  cases a <;> cases b <;> cases c <;> cases d <;> cases e <;> simp

/-- C8 as amended: when its detach calls succeed, delete_waitset (on an
existing waitset) detaches the sources recorded as attached in the fixed order
exit, participant-info, participant, subscription, publication.  This is the
exact reverse of the attach order (participant, publication, subscription,
participant-info, exit) whenever the participant source is not attached or
neither the publication nor the subscription source is. -/
theorem delete_waitset_detach_order (env : Env) (ctx : Context) (hok : detaches_ok env)
    (hws : ctx.discovery_thread_waitset ≠ none) :
    detached_sources (rmw_connextdds_discovery_thread_delete_waitset env ctx).calls =
      [Source.exit, Source.partinfo, Source.participant, Source.subscription,
        Source.publication].filter (recorded ctx) ∧
    (recorded ctx Source.participant = false ∨
      (recorded ctx Source.publication = false ∧ recorded ctx Source.subscription = false) →
      detached_sources (rmw_connextdds_discovery_thread_delete_waitset env ctx).calls =
        ([Source.participant, Source.publication, Source.subscription, Source.partinfo,
          Source.exit].filter (recorded ctx)).reverse) := by
  have h := (delete_waitset_detached env ctx hok hws).2
  refine ⟨h, fun hc => ?_⟩
  rw [h]
  exact teardown_filter_eq_reverse ctx hc

/-- Witness for C8 as amended: the context reached by a successful start with
only the publications reader enabled. -/
theorem delete_waitset_detach_order_witness :
    detaches_ok env_ok ∧
    (rmw_connextdds_discovery_thread_start env_ok ctx_pub).ctx.discovery_thread_waitset
      ≠ none ∧
    detached_sources (rmw_connextdds_discovery_thread_delete_waitset env_ok
        (rmw_connextdds_discovery_thread_start env_ok ctx_pub).ctx).calls =
      [Source.exit, Source.partinfo, Source.participant, Source.subscription,
        Source.publication].filter
        (recorded (rmw_connextdds_discovery_thread_start env_ok ctx_pub).ctx) ∧
    (recorded (rmw_connextdds_discovery_thread_start env_ok ctx_pub).ctx Source.participant
        = false ∨
      (recorded (rmw_connextdds_discovery_thread_start env_ok ctx_pub).ctx Source.publication
        = false ∧
       recorded (rmw_connextdds_discovery_thread_start env_ok ctx_pub).ctx Source.subscription
        = false) →
      detached_sources (rmw_connextdds_discovery_thread_delete_waitset env_ok
          (rmw_connextdds_discovery_thread_start env_ok ctx_pub).ctx).calls =
        ([Source.participant, Source.publication, Source.subscription, Source.partinfo,
          Source.exit].filter
          (recorded (rmw_connextdds_discovery_thread_start env_ok ctx_pub).ctx)).reverse) :=
  ⟨detaches_ok_env_ok, by decide,
    delete_waitset_detach_order env_ok
      (rmw_connextdds_discovery_thread_start env_ok ctx_pub).ctx detaches_ok_env_ok
      (by decide)⟩

/-- C7, evaluation at the failing input: no reader is enabled, the guard
condition 7 is allocated, and the reset of the participant-info condition
fails.  start returns RMW_RET_ERROR with the waitset destroyed, the counter 0
and the running flag false, but the guard condition is still referenced by the
context and rmw_connextdds_destroy_guard_condition was never called. -/
theorem start_waitset_failure_keeps_guard_condition :
    (rmw_connextdds_discovery_thread_start
      { env_ok with reset_statuses_ok := false } ctx_none).ret = rmw_ret_t.RMW_RET_ERROR ∧
    (rmw_connextdds_discovery_thread_start
      { env_ok with reset_statuses_ok := false } ctx_none).calls =
      [Call.create_guard_condition (some 7), Call.waitset_new (some 1),
       Call.reset_statuses false, Call.waitset_delete] ∧
    (rmw_connextdds_discovery_thread_start
      { env_ok with reset_statuses_ok := false } ctx_none).ctx.listener_thread_gc = some 7 ∧
    destroys (some 7) (rmw_connextdds_discovery_thread_start
      { env_ok with reset_statuses_ok := false } ctx_none).calls = [] ∧
    destroys (some 7) (rmw_connextdds_discovery_thread_start
      { env_ok with thread_create_ok := false } ctx_none).calls =
      [Call.destroy_guard_condition (some 7) rmw_ret_t.RMW_RET_OK] := by
  decide

theorem start_all_ok (env : Env) (ctx : Context) (hclean : clean ctx) (h : all_ok env) :
    (rmw_connextdds_discovery_thread_start env ctx).ret = rmw_ret_t.RMW_RET_OK ∧
    attached_sources (rmw_connextdds_discovery_thread_start env ctx).calls =
      enabled_sources ctx ++ [Source.partinfo, Source.exit] ∧
    detached_sources (rmw_connextdds_discovery_thread_start env ctx).calls = [] ∧
    recorded_attached (rmw_connextdds_discovery_thread_start env ctx).ctx =
      enabled_sources ctx ++ [Source.partinfo, Source.exit] ∧
    (rmw_connextdds_discovery_thread_start env ctx).ctx.discovery_thread_waitset_size =
      (enabled_sources ctx).length + 2 := by
  obtain ⟨hgc, hws, hps, hpa, hus, hua, hss, hsa, hr, he, hia, hea, _, htc, _, _, _⟩ := h
  obtain ⟨g, hg⟩ := Option.ne_none_iff_exists'.mp hgc
  obtain ⟨w, hw⟩ := Option.ne_none_iff_exists'.mp hws
  obtain ⟨drp, drpu, drs, ws, cp, cpu, cs, ex, di, sz, gc, run, jn⟩ := ctx
  simp only [clean] at hclean
  obtain ⟨rfl, rfl, rfl, rfl, rfl, rfl, rfl, rfl, rfl⟩ := hclean
  cases drp <;> cases drpu <;> cases drs <;>
    simp [rmw_connextdds_discovery_thread_start, rmw_connextdds_discovery_thread_create_waitset,
      create_waitset_part, create_waitset_pub, create_waitset_sub, create_waitset_partinfo,
      create_waitset_exit, rmw_connextdds_attach_reader_to_waitset, Ret.after,
      size_inc, SIZE_MOD, attached_sources, detached_sources,
      enabled_sources, recorded_attached, attach_order, recorded,
      hg, hw, hps, hpa, hus, hua, hss, hsa, hr, he, hia, hea, htc]

theorem stop_all_ok (env : Env) (ctx : Context)
    (hws : ctx.discovery_thread_waitset ≠ none) (hrun : ctx.thread_is_running = true)
    (h : all_ok env) :
    (rmw_connextdds_discovery_thread_stop env ctx).ret = rmw_ret_t.RMW_RET_OK ∧
    detached_sources (rmw_connextdds_discovery_thread_stop env ctx).calls =
      teardown_order.filter (recorded ctx) ∧
    attached_sources (rmw_connextdds_discovery_thread_stop env ctx).calls = [] := by
  obtain ⟨_, _, _, _, _, _, _, _, _, _, _, _, hdet, _, htr, hj, hdg⟩ := h
  obtain ⟨d1, d2⟩ := delete_waitset_detached env
    { ctx with thread_is_running := false, listener_thread_joinable := false } hdet hws
  have d3 := attached_sources_of_teardown _ (delete_waitset_calls env
    { ctx with thread_is_running := false, listener_thread_joinable := false })
  have hrec : ∀ c : Context,
      recorded { c with thread_is_running := false, listener_thread_joinable := false }
        = recorded c := by
    intro c; funext s; cases s <;> rfl
  rw [hrec] at d2
  unfold rmw_connextdds_discovery_thread_stop
  simp only [hrun, if_true, htr, hj, hdg, d1, ne_eq, not_true_eq_false, if_false,
    Bool.true_eq_false, Ret.after_ret, Ret.after_ctx, Ret.after_calls,
    detached_sources_append, attached_sources_append, d2, d3]
  simp [detached_sources, attached_sources]

/-- C3: from a clean context, for every subset of readers enabled, when every
external call succeeds start returns RMW_RET_OK having attached exactly the
enabled readers' conditions (participant, publication, subscription, in this
order), then the participant-info condition, then the exit condition, and
nothing else; these are the sources recorded as attached and the counter is
the number of enabled classes plus 2 (3 when only publication is enabled).  A
following stop, every call succeeding, returns RMW_RET_OK having detached
exactly that set, attaches nothing, and leaves the counter at 0, nothing
recorded as attached and the waitset null. -/
theorem start_stop_attach_detach_enabled (env1 env2 : Env) (ctx : Context)
    (hclean : clean ctx) (h1 : all_ok env1) (h2 : all_ok env2) :
    (rmw_connextdds_discovery_thread_start env1 ctx).ret = rmw_ret_t.RMW_RET_OK ∧
    attached_sources (rmw_connextdds_discovery_thread_start env1 ctx).calls =
      enabled_sources ctx ++ [Source.partinfo, Source.exit] ∧
    detached_sources (rmw_connextdds_discovery_thread_start env1 ctx).calls = [] ∧
    recorded_attached (rmw_connextdds_discovery_thread_start env1 ctx).ctx =
      enabled_sources ctx ++ [Source.partinfo, Source.exit] ∧
    (rmw_connextdds_discovery_thread_start env1 ctx).ctx.discovery_thread_waitset_size =
      (enabled_sources ctx).length + 2 ∧
    (enabled_sources ctx = [Source.publication] →
      (rmw_connextdds_discovery_thread_start env1 ctx).ctx.discovery_thread_waitset_size = 3) ∧
    (rmw_connextdds_discovery_thread_start env1 ctx).ctx.discovery_thread_waitset ≠ none ∧
    (rmw_connextdds_discovery_thread_stop env2
      (rmw_connextdds_discovery_thread_start env1 ctx).ctx).ret = rmw_ret_t.RMW_RET_OK ∧
    (detached_sources (rmw_connextdds_discovery_thread_stop env2
      (rmw_connextdds_discovery_thread_start env1 ctx).ctx).calls).Perm
      (attached_sources (rmw_connextdds_discovery_thread_start env1 ctx).calls) ∧
    attached_sources (rmw_connextdds_discovery_thread_stop env2
      (rmw_connextdds_discovery_thread_start env1 ctx).ctx).calls = [] ∧
    (rmw_connextdds_discovery_thread_stop env2
      (rmw_connextdds_discovery_thread_start env1 ctx).ctx).ctx.discovery_thread_waitset_size
      = 0 ∧
    recorded_attached (rmw_connextdds_discovery_thread_stop env2
      (rmw_connextdds_discovery_thread_start env1 ctx).ctx).ctx = [] ∧
    (rmw_connextdds_discovery_thread_stop env2
      (rmw_connextdds_discovery_thread_start env1 ctx).ctx).ctx.discovery_thread_waitset
      = none := by
  obtain ⟨s1, s2, s3, s4, s5⟩ := start_all_ok env1 ctx hclean h1
  obtain ⟨hinv, hws⟩ := start_ok_post env1 ctx hclean s1
  have hrun := start_ok_running env1 ctx s1
  obtain ⟨t1, t2, t3⟩ := stop_all_ok env2 _ hws hrun h2
  obtain ⟨⟨r1, r2, r3⟩, _⟩ := stop_ok_released env2 _ hinv hws hrun t1
  refine ⟨s1, s2, s3, s4, s5, ?_, hws, t1, ?_, t3, r1, r2, r3⟩
  · intro he
    rw [s5, he]
    rfl
  · rw [t2, s2, ← s4]
    exact teardown_order_perm.filter _

/-- Witness for C3: only the publications reader is enabled. -/
theorem start_stop_attach_detach_enabled_witness :
    clean ctx_pub ∧ all_ok env_ok ∧
    (rmw_connextdds_discovery_thread_start env_ok ctx_pub).ret = rmw_ret_t.RMW_RET_OK ∧
    attached_sources (rmw_connextdds_discovery_thread_start env_ok ctx_pub).calls =
      enabled_sources ctx_pub ++ [Source.partinfo, Source.exit] ∧
    detached_sources (rmw_connextdds_discovery_thread_start env_ok ctx_pub).calls = [] ∧
    recorded_attached (rmw_connextdds_discovery_thread_start env_ok ctx_pub).ctx =
      enabled_sources ctx_pub ++ [Source.partinfo, Source.exit] ∧
    (rmw_connextdds_discovery_thread_start env_ok ctx_pub).ctx.discovery_thread_waitset_size =
      (enabled_sources ctx_pub).length + 2 ∧
    (enabled_sources ctx_pub = [Source.publication] →
      (rmw_connextdds_discovery_thread_start env_ok ctx_pub).ctx.discovery_thread_waitset_size
        = 3) ∧
    (rmw_connextdds_discovery_thread_start env_ok ctx_pub).ctx.discovery_thread_waitset
      ≠ none ∧
    (rmw_connextdds_discovery_thread_stop env_ok
      (rmw_connextdds_discovery_thread_start env_ok ctx_pub).ctx).ret = rmw_ret_t.RMW_RET_OK ∧
    (detached_sources (rmw_connextdds_discovery_thread_stop env_ok
      (rmw_connextdds_discovery_thread_start env_ok ctx_pub).ctx).calls).Perm
      (attached_sources (rmw_connextdds_discovery_thread_start env_ok ctx_pub).calls) ∧
    attached_sources (rmw_connextdds_discovery_thread_stop env_ok
      (rmw_connextdds_discovery_thread_start env_ok ctx_pub).ctx).calls = [] ∧
    (rmw_connextdds_discovery_thread_stop env_ok
      (rmw_connextdds_discovery_thread_start env_ok ctx_pub).ctx).ctx.discovery_thread_waitset_size
      = 0 ∧
    recorded_attached (rmw_connextdds_discovery_thread_stop env_ok
      (rmw_connextdds_discovery_thread_start env_ok ctx_pub).ctx).ctx = [] ∧
    (rmw_connextdds_discovery_thread_stop env_ok
      (rmw_connextdds_discovery_thread_start env_ok ctx_pub).ctx).ctx.discovery_thread_waitset
      = none :=
  ⟨clean_ctx_pub, all_ok_env_ok,
    start_stop_attach_detach_enabled env_ok env_ok ctx_pub clean_ctx_pub all_ok_env_ok
      all_ok_env_ok⟩


/-! ## The dispatch loop: the four passes in closed form -/

theorem scan_part_eq (tc : ThreadCtx) (rs : List Cond) (s : IterState) :
    scan_part tc rs s =
      if rs.any (is_part tc) = true then
        { s with calls := s.calls ++ [Handler.dcps_participant_on_data],
                 processed_len := s.processed_len + 1 }
      else s := by
  induction rs with
  | nil => simp [scan_part]
  | cons c rest ih =>
    by_cases hc : (tc.cond_dcps_part == some c) = true
    · simp [scan_part, is_part, hc]
    · simp only [Bool.not_eq_true] at hc
      simp only [scan_part, hc, Bool.false_eq_true, if_false, ih, List.any_cons, is_part,
        Bool.false_or]

theorem scan_pubsub_eq (tc : ThreadCtx) (n : Nat) (rs : List Cond) (pl : Nat)
    (calls : List Handler)
    (hb : pl + (rs.filterMap (pubsub_handler tc)).length ≤ n) :
    scan_pubsub tc n rs ⟨true, pl, calls⟩ =
      ⟨true, pl + (rs.filterMap (pubsub_handler tc)).length,
        calls ++ rs.filterMap (pubsub_handler tc)⟩ := by
  induction rs generalizing pl calls with
  | nil => simp [scan_pubsub]
  | cons c rest ih =>
    by_cases hlt : pl < n
    · by_cases hp : (tc.cond_dcps_pub == some c) = true
      · have hh : pubsub_handler tc c = some Handler.dcps_publication_on_data := by
          simp [pubsub_handler, hp]
        simp only [List.filterMap_cons, hh, List.length_cons] at hb ⊢
        simp only [scan_pubsub, hlt, and_self, if_true, hp]
        rw [ih (pl + 1) _ (by omega)]
        simp [Nat.add_assoc, Nat.add_comm]
      · by_cases hs : (tc.cond_dcps_sub == some c) = true
        · have hh : pubsub_handler tc c = some Handler.dcps_subscription_on_data := by
            simp [pubsub_handler, hp, hs]
          simp only [List.filterMap_cons, hh, List.length_cons] at hb ⊢
          simp only [scan_pubsub, hlt, and_self, if_true, hp, hs, if_false, Bool.false_eq_true]
          rw [ih (pl + 1) _ (by omega)]
          simp [Nat.add_assoc, Nat.add_comm]
        · have hh : pubsub_handler tc c = none := by
            simp [pubsub_handler, hp, hs]
          simp only [List.filterMap_cons, hh] at hb ⊢
          simp only [scan_pubsub, hlt, and_self, if_true, hp, hs, if_false, Bool.false_eq_true]
          exact ih pl calls hb
    · have hz : (List.filterMap (pubsub_handler tc) (c :: rest)).length = 0 := by omega
      have hnil := List.length_eq_zero.mp hz
      simp [scan_pubsub, hlt, hnil]

theorem scan_partinfo_eq (tc : ThreadCtx) (rs : List Cond) (s : IterState)
    (hact : s.active = true) :
    scan_partinfo tc rs s =
      if rs.any tc.partinfo_owns = true then
        { s with calls := s.calls ++ [Handler.graph_on_participant_info],
                 processed_len := s.processed_len + 1 }
      else s := by
  induction rs with
  | nil => simp [scan_partinfo]
  | cons c rest ih =>
    by_cases hc : tc.partinfo_owns c = true
    · simp [scan_partinfo, hact, hc]
    · simp only [Bool.not_eq_true] at hc
      simp only [scan_partinfo, hact, if_true, hc, Bool.false_eq_true, if_false, ih,
        List.any_cons, Bool.false_or]

theorem any_is_part_of_none (tc : ThreadCtx) (rs : List Cond)
    (h : tc.cond_dcps_part = none) : rs.any (is_part tc) = false := by
  simp [is_part, h]

theorem filterMap_pubsub_of_none (tc : ThreadCtx) (rs : List Cond)
    (h1 : tc.cond_dcps_pub = none) (h2 : tc.cond_dcps_sub = none) :
    rs.filterMap (pubsub_handler tc) = [] := by
  simp [pubsub_handler, h1, h2]

theorem iteration_eq_summary (tc : ThreadCtx) (rs : List Cond)
    (hexit : ∀ c ∈ rs, tc.gcond_exit_owns c = false)
    (hb : (if rs.any (is_part tc) = true then 1 else 0) +
      (rs.filterMap (pubsub_handler tc)).length ≤ rs.length) :
    iteration tc rs = dispatch_summary tc rs := by
  have h1 := scan_exit_of_not_owned tc rs ⟨true, 0, []⟩ hexit
  have e2 : (if (0 < rs.length ∧ tc.cond_dcps_part ≠ none) then
        scan_part tc rs ⟨true, 0, []⟩ else ⟨true, 0, []⟩) =
      (if rs.any (is_part tc) = true then
        (⟨true, 1, [Handler.dcps_participant_on_data]⟩ : IterState) else ⟨true, 0, []⟩) := by
    by_cases hpn : tc.cond_dcps_part = none
    · simp [hpn, any_is_part_of_none tc rs hpn]
    · by_cases hn : 0 < rs.length
      · simp [hpn, hn, scan_part_eq]
      · have hnil : rs = [] := List.length_eq_zero.mp (by omega)
        subst hnil
        simp
  have e3 : ∀ (pl : Nat) (calls : List Handler),
      pl + (rs.filterMap (pubsub_handler tc)).length ≤ rs.length →
      (if (tc.cond_dcps_pub ≠ none ∨ tc.cond_dcps_sub ≠ none) then
        scan_pubsub tc rs.length rs ⟨true, pl, calls⟩ else ⟨true, pl, calls⟩) =
      ⟨true, pl + (rs.filterMap (pubsub_handler tc)).length,
        calls ++ rs.filterMap (pubsub_handler tc)⟩ := by
    intro pl calls hpl
    by_cases hps : tc.cond_dcps_pub ≠ none ∨ tc.cond_dcps_sub ≠ none
    · rw [if_pos hps, scan_pubsub_eq tc _ rs pl calls hpl]
    · rw [if_neg hps]
      simp only [not_or, not_not] at hps
      simp [filterMap_pubsub_of_none tc rs hps.1 hps.2]
  unfold iteration dispatch_summary
  simp only [h1, true_and]
  rw [e2]
  by_cases hp : rs.any (is_part tc) = true
  · simp only [hp, if_true, true_and] at hb ⊢
    rw [e3 1 _ hb]
    simp only [scan_partinfo_eq, List.length_singleton, true_and]
    split_ifs <;> simp_all
  · simp only [hp, if_false, true_and, Bool.false_eq_true] at hb ⊢
    rw [e3 0 _ hb]
    simp only [scan_partinfo_eq, List.length_nil, true_and]
    split_ifs <;> simp_all
    omega

/-! ## The dispatch loop: counting the entries -/

theorem exclusive_count (tc : ThreadCtx) (c : Cond) (h : exclusive tc c) :
    (if is_part tc c = true then 1 else 0) + (pubsub_handler tc c).toList.length +
      (if tc.partinfo_owns c = true then 1 else 0) +
      (if (!registered tc c) = true then 1 else 0) = 1 := by
  simp only [exclusive, is_part, pubsub_handler] at h
  simp only [is_part, pubsub_handler, registered, identifies]
  by_cases hp : (tc.cond_dcps_part == some c) = true <;>
    by_cases hu : (tc.cond_dcps_pub == some c) = true <;>
    by_cases hs : (tc.cond_dcps_sub == some c) = true <;>
    by_cases ho : tc.partinfo_owns c = true <;> simp_all

theorem count_partition (tc : ThreadCtx) (l : List Cond)
    (hex : ∀ c ∈ l, exclusive tc c) :
    l.countP (is_part tc) + (l.filterMap (pubsub_handler tc)).length +
      l.countP tc.partinfo_owns + l.countP (fun c => !registered tc c) = l.length := by
  induction l with
  | nil => simp
  | cons c rest ih =>
    have ih1 := ih (fun d hd => hex d (List.mem_cons_of_mem c hd))
    have e := exclusive_count tc c (hex c (List.mem_cons_self c rest))
    cases hph : pubsub_handler tc c <;>
      simp only [List.countP_cons, List.filterMap_cons, hph, List.length_cons] <;>
      simp only [hph, Option.toList, List.length_nil, List.length_singleton] at e <;>
      omega

theorem countP_is_part_le_one (tc : ThreadCtx) (l : List Cond) (h : l.Nodup) :
    l.countP (is_part tc) ≤ 1 := by
  cases hp : tc.cond_dcps_part with
  | none =>
    have h0 : l.countP (is_part tc) = 0 :=
      List.countP_eq_zero.mpr (fun c _ => by simp [is_part, hp])
    omega
  | some p =>
    have hc : l.countP (is_part tc) = l.count p := by
      unfold List.count
      apply List.countP_congr
      intro c _
      simp only [is_part, hp, beq_iff_eq, Option.some.injEq]
      exact eq_comm
    rw [hc]
    exact List.nodup_iff_count_le_one.mp h p

theorem any_eq_countP_pos (p : Cond → Bool) (l : List Cond) :
    (l.any p = true) ↔ 0 < l.countP p := by
  rw [List.countP_pos_iff, List.any_eq_true]

theorem exclusive_of_distinct (tc : ThreadCtx) (h : distinct_identities tc) (c : Cond) :
    exclusive tc c := by
  obtain ⟨h1, h2, h3⟩ := h
  have a1 := h1 c
  have a3 := h3 c
  simp only [exclusive, is_part, pubsub_handler]
  by_cases hp : tc.cond_dcps_part = some c <;> by_cases hu : tc.cond_dcps_pub = some c <;>
    by_cases hs : tc.cond_dcps_sub = some c <;> simp_all

theorem assertion_holds_iff_registered (tc : ThreadCtx) (rs : List Cond)
    (hnodup : rs.Nodup) (hexit : ∀ c ∈ rs, tc.gcond_exit_owns c = false)
    (hdist : distinct_identities tc) (hinfo : rs.countP tc.partinfo_owns ≤ 1) :
    iteration_assertion rs.length (iteration tc rs) = true ↔
      ∀ c ∈ rs, registered tc c = true := by
  have hpart := count_partition tc rs (fun c _ => exclusive_of_distinct tc hdist c)
  have ha := countP_is_part_le_one tc rs hnodup
  have hany := any_eq_countP_pos (is_part tc) rs
  have hown := any_eq_countP_pos tc.partinfo_owns rs
  have hfirst : (if rs.any (is_part tc) = true then 1 else 0) = rs.countP (is_part tc) := by
    split_ifs with h
    · have := hany.mp h; omega
    · have : ¬ 0 < rs.countP (is_part tc) := fun hh => h (hany.mpr hh)
      omega
  have hsum := iteration_eq_summary tc rs hexit (by rw [hfirst]; omega)
  have hreg : (∀ c ∈ rs, registered tc c = true) ↔
      rs.countP (fun c => !registered tc c) = 0 := by
    rw [List.countP_eq_zero]
    simp
  rw [hsum, hreg]
  simp only [iteration_assertion, dispatch_summary, Bool.not_true, Bool.or_false,
    beq_iff_eq]
  by_cases h1 : rs.any (is_part tc) = true <;>
    by_cases h2 : rs.any tc.partinfo_owns = true <;>
    simp only [h1, h2, if_true, if_false, and_true, and_false, List.length_singleton,
      List.length_nil, Bool.false_eq_true] at hfirst ⊢
  · have := hown.mp h2
    split_ifs <;> simp only [List.length_singleton, List.length_nil] <;> omega
  · have : ¬ 0 < rs.countP tc.partinfo_owns := fun hh => h2 (hown.mpr hh)
    omega
  · have := hown.mp h2
    split_ifs <;> simp only [List.length_singleton, List.length_nil] <;> omega
  · have : ¬ 0 < rs.countP tc.partinfo_owns := fun hh => h2 (hown.mpr hh)
    omega

/-- C9: for a ready-set with pairwise distinct entries and no entry owned by
the exit condition, when the registered reader identities are distinct from
each other and not owned by the participant-info condition, and that condition
owns at most one entry, the assertion of line 161 holds exactly when every
entry is the identity of a registered source.  So a ready-set of registered
identities never violates it, and an entry that matches no registered source
violates it: the loop, at whatever iteration it receives such a ready-set,
ends with the assertion failure instead of going on. -/
theorem assertion_iff_all_registered (tc : ThreadCtx) (rs : List Cond)
    (hnodup : rs.Nodup) (hexit : ∀ c ∈ rs, tc.gcond_exit_owns c = false)
    (hdist : distinct_identities tc) (hinfo : rs.countP tc.partinfo_owns ≤ 1) :
    (iteration_assertion rs.length (iteration tc rs) = true ↔
      ∀ c ∈ rs, registered tc c = true) ∧
    ((∃ c ∈ rs, registered tc c = false) →
      ∀ (env : LoopEnv) (fuel nwait nload : Nat) (tr : List LoopEvent),
        env.wait nwait = some rs →
        (main_loop tc env (fuel + 1) true nwait nload tr).1 = LoopExit.assertion_failed) := by
  have hiff := assertion_holds_iff_registered tc rs hnodup hexit hdist hinfo
  refine ⟨hiff, ?_⟩
  rintro ⟨c, hc, hreg⟩ env fuel nwait nload tr hw
  have hfalse : iteration_assertion rs.length (iteration tc rs) = false := by
    cases hass : iteration_assertion rs.length (iteration tc rs)
    · rfl
    · have := hiff.mp hass c hc
      rw [hreg] at this
      exact absurd this (by simp)
  simp [main_loop, hw, hfalse]

theorem distinct_identities_tc_example : distinct_identities tc_example := by
  refine ⟨?_, ?_, ?_⟩
  · intro c h
    simp only [tc_example, Option.some.injEq] at h
    subst h
    simp [tc_example]
  · intro c h
    simp only [tc_example, Option.some.injEq] at h
    subst h
    simp [tc_example]
  · intro c h
    simp only [tc_example, Option.some.injEq] at h
    rcases h with h | h | h <;> subst h <;> simp [tc_example]

/-- Witness for C9: the ready-set holds the participant-info entry 4 and the
entry 7, which no registered source owns. -/
theorem assertion_iff_all_registered_witness :
    [4, 7].Nodup ∧ (∀ c ∈ [4, 7], tc_example.gcond_exit_owns c = false) ∧
    distinct_identities tc_example ∧ [4, 7].countP tc_example.partinfo_owns ≤ 1 ∧
    (iteration_assertion [4, 7].length (iteration tc_example [4, 7]) = true ↔
      ∀ c ∈ [4, 7], registered tc_example c = true) ∧
    ((∃ c ∈ [4, 7], registered tc_example c = false) →
      ∀ (env : LoopEnv) (fuel nwait nload : Nat) (tr : List LoopEvent),
        env.wait nwait = some [4, 7] →
        (main_loop tc_example env (fuel + 1) true nwait nload tr).1
          = LoopExit.assertion_failed) :=
  ⟨by decide, by decide, distinct_identities_tc_example, by decide,
    assertion_iff_all_registered tc_example [4, 7] (by decide) (by decide)
      distinct_identities_tc_example (by decide)⟩

/-! ## The dispatch loop: priority order -/

theorem priority_order_perm (srcs : List Handler) : (priority_order srcs).Perm srcs := by
  have h1 := List.filter_append_perm (fun h => h == Handler.dcps_participant_on_data) srcs
  have h2 := List.filter_append_perm
    (fun h => h == Handler.dcps_publication_on_data || h == Handler.dcps_subscription_on_data)
    (srcs.filter (fun h => !(h == Handler.dcps_participant_on_data)))
  have e2 : (srcs.filter (fun h => !(h == Handler.dcps_participant_on_data))).filter
      (fun h => h == Handler.dcps_publication_on_data ||
        h == Handler.dcps_subscription_on_data) =
      srcs.filter (fun h => h == Handler.dcps_publication_on_data ||
        h == Handler.dcps_subscription_on_data) := by
    rw [List.filter_filter]
    apply List.filter_congr
    intro x _
    cases x <;> rfl
  have e3 : (srcs.filter (fun h => !(h == Handler.dcps_participant_on_data))).filter
      (fun h => !(h == Handler.dcps_publication_on_data ||
        h == Handler.dcps_subscription_on_data)) =
      srcs.filter (fun h => h == Handler.graph_on_participant_info) := by
    rw [List.filter_filter]
    apply List.filter_congr
    intro x _
    cases x <;> rfl
  rw [e2, e3] at h2
  unfold priority_order
  rw [List.append_assoc]
  exact (List.Perm.append_left _ h2).trans h1

theorem identifies_only_facts (tc : ThreadCtx) (c : Cond) (s : Handler)
    (h : identifies_only tc c s) :
    is_part tc c = (s == Handler.dcps_participant_on_data) ∧
    pubsub_handler tc c = pubsub_of s ∧
    tc.partinfo_owns c = (s == Handler.graph_on_participant_info) ∧
    registered tc c = true ∧ exclusive tc c := by
  have h1 := h Handler.dcps_participant_on_data
  have h2 := h Handler.dcps_publication_on_data
  have h3 := h Handler.dcps_subscription_on_data
  have h4 := h Handler.graph_on_participant_info
  simp only [identifies] at h1 h2 h3 h4
  simp only [is_part, pubsub_handler, registered, identifies, exclusive]
  cases s <;> simp_all [pubsub_of]

theorem forall₂_identifies_facts (tc : ThreadCtx) (rs : List Cond) (srcs : List Handler)
    (h : List.Forall₂ (identifies_only tc) rs srcs) :
    rs.countP (is_part tc) = srcs.count Handler.dcps_participant_on_data ∧
    rs.filterMap (pubsub_handler tc) =
      srcs.filter (fun h => h == Handler.dcps_publication_on_data ||
                            h == Handler.dcps_subscription_on_data) ∧
    rs.countP tc.partinfo_owns = srcs.count Handler.graph_on_participant_info ∧
    (∀ c ∈ rs, registered tc c = true ∧ exclusive tc c) := by
  induction h with
  | nil => simp
  | @cons c s rest srest hcs _ ih =>
    obtain ⟨f1, f2, f3, f4, f5⟩ := identifies_only_facts tc c s hcs
    obtain ⟨i1, i2, i3, i4⟩ := ih
    refine ⟨?_, ?_, ?_, ?_⟩
    · rw [List.countP_cons, List.count_cons, i1, f1]
    · rw [List.filterMap_cons, f2, i2]
      cases s <;> simp [pubsub_of, List.filter_cons]
    · rw [List.countP_cons, List.count_cons, i3, f3]
    · intro d hd
      rcases List.mem_cons.mp hd with rfl | hd
      · exact ⟨f4, f5⟩
      · exact i4 d hd

theorem forall₂_identifies_nodup (tc : ThreadCtx) (rs : List Cond) (srcs : List Handler)
    (h : List.Forall₂ (identifies_only tc) rs srcs) (hsrcs : srcs.Nodup) : rs.Nodup := by
  induction h with
  | nil => exact List.nodup_nil
  | @cons c s rest srest hcs hrest ih =>
    obtain ⟨hs, hsrest⟩ := List.nodup_cons.mp hsrcs
    refine List.nodup_cons.mpr ⟨?_, ih hsrest⟩
    intro hc
    have hex : ∀ (l : List Cond) (m : List Handler), List.Forall₂ (identifies_only tc) l m →
        c ∈ l → ∃ t ∈ m, identifies_only tc c t := by
      intro l m hlm
      induction hlm with
      | nil => intro hmem; exact absurd hmem (List.not_mem_nil c)
      | @cons d t l1 m1 hdt _ ih1 =>
        intro hmem
        rcases List.mem_cons.mp hmem with rfl | hmem
        · exact ⟨t, List.mem_cons_self t m1, hdt⟩
        · obtain ⟨t1, ht1, hid1⟩ := ih1 hmem
          exact ⟨t1, List.mem_cons_of_mem t ht1, hid1⟩
    obtain ⟨t, ht, hid⟩ := hex rest srest hrest hc
    have : s = t := (hid s).mp ((hcs s).mpr rfl)
    exact hs (this ▸ ht)

theorem replicate_of_le_one {α : Type} (n : Nat) (x : α) (h : n ≤ 1) :
    List.replicate n x = if 0 < n then [x] else [] := by
  have : n = 0 ∨ n = 1 := by omega
  rcases this with rfl | rfl <;> simp

theorem pubsub_both_orders (l : List Handler) (hnd : l.Nodup)
    (hall : ∀ x ∈ l, x = Handler.dcps_publication_on_data ∨
      x = Handler.dcps_subscription_on_data)
    (hp : Handler.dcps_publication_on_data ∈ l)
    (hs : Handler.dcps_subscription_on_data ∈ l) :
    l = [Handler.dcps_publication_on_data, Handler.dcps_subscription_on_data] ∨
    l = [Handler.dcps_subscription_on_data, Handler.dcps_publication_on_data] := by
  match l, hnd, hall, hp, hs with
  | [], _, _, hp, _ => simp at hp
  | [a], _, _, hp, hs =>
    simp only [List.mem_singleton] at hp hs
    rw [← hp] at hs
    exact absurd hs (by decide)
  | [a, b], hnd, hall, hp, hs =>
    have ha := hall a (by simp)
    have hb := hall b (by simp)
    rcases ha with rfl | rfl <;> rcases hb with rfl | rfl <;> simp_all
  | a :: b :: c :: rest, hnd, hall, _, _ =>
    have ha := hall a (by simp)
    have hb := hall b (by simp)
    have hc := hall c (by simp)
    rcases ha with rfl | rfl <;> rcases hb with rfl | rfl <;> rcases hc with rfl | rfl <;>
      simp_all

/-- C2: for a ready-set without exit entry whose entries each identify
exactly one registered source, different entries identifying different sources
(so the entries are pairwise distinct), one iteration calls the handlers of
exactly the sources identified, once each, in priority order: participant
first, then publication and subscription in the order of their entries in the
ready-set, then participant-info; the number of calls is the number of
entries.  In particular, when the four sources are all identified the four
handlers run once each, participant first and participant-info last; and when
the only entry identifies the participant-info source, its handler is the only
call. -/
theorem dispatch_in_priority_order (tc : ThreadCtx) (rs : List Cond) (srcs : List Handler)
    (hexit : ∀ c ∈ rs, tc.gcond_exit_owns c = false)
    (hid : List.Forall₂ (identifies_only tc) rs srcs) (hsrcs : srcs.Nodup) :
    (iteration tc rs).calls = priority_order srcs ∧
    (iteration tc rs).calls.Perm srcs ∧
    (iteration tc rs).calls.length = rs.length ∧
    rs.Nodup ∧
    ((∀ h : Handler, h ∈ srcs) →
      (iteration tc rs).calls =
        [Handler.dcps_participant_on_data, Handler.dcps_publication_on_data,
         Handler.dcps_subscription_on_data, Handler.graph_on_participant_info] ∨
      (iteration tc rs).calls =
        [Handler.dcps_participant_on_data, Handler.dcps_subscription_on_data,
         Handler.dcps_publication_on_data, Handler.graph_on_participant_info]) ∧
    (srcs = [Handler.graph_on_participant_info] →
      (iteration tc rs).calls = [Handler.graph_on_participant_info]) := by
  obtain ⟨f1, f2, f3, f4⟩ := forall₂_identifies_facts tc rs srcs hid
  have hpart := count_partition tc rs (fun c hc => (f4 c hc).2)
  have hu : rs.countP (fun c => !registered tc c) = 0 := by
    rw [List.countP_eq_zero]
    intro c hc
    simp [(f4 c hc).1]
  have ha : srcs.count Handler.dcps_participant_on_data ≤ 1 :=
    List.nodup_iff_count_le_one.mp hsrcs _
  have hi : srcs.count Handler.graph_on_participant_info ≤ 1 :=
    List.nodup_iff_count_le_one.mp hsrcs _
  have hany := any_eq_countP_pos (is_part tc) rs
  have hown := any_eq_countP_pos tc.partinfo_owns rs
  have hfirst : (if rs.any (is_part tc) = true then 1 else 0) = rs.countP (is_part tc) := by
    split_ifs with h
    · have := hany.mp h; omega
    · have : ¬ 0 < rs.countP (is_part tc) := fun hh => h (hany.mpr hh)
      omega
  have hsum := iteration_eq_summary tc rs hexit (by rw [hfirst]; omega)
  have hcalls : (iteration tc rs).calls = priority_order srcs := by
    rw [hsum]
    unfold dispatch_summary priority_order
    simp only [List.filter_beq]
    rw [replicate_of_le_one _ _ ha, replicate_of_le_one _ _ hi, f2]
    rw [f1] at hany
    rw [f3] at hown
    rw [f1, f2, f3, hu] at hpart
    simp only [hany, hown]
    by_cases h1 : 0 < srcs.count Handler.dcps_participant_on_data <;>
      by_cases h2 : 0 < srcs.count Handler.graph_on_participant_info <;>
      simp only [h1, h2, if_true, if_false, and_true, and_false, List.length_singleton,
        List.length_nil]
    · rw [if_pos (by omega)]
    · rw [if_pos (by omega)]
  have hperm := priority_order_perm srcs
  refine ⟨hcalls, hcalls ▸ hperm, ?_, ?_, ?_, ?_⟩
  · rw [hcalls, hperm.length_eq, hid.length_eq]
  · exact forall₂_identifies_nodup tc rs srcs hid hsrcs
  · intro hall
    rw [hcalls]
    unfold priority_order
    simp only [List.filter_beq]
    rw [List.count_eq_one_of_mem hsrcs (hall _), List.count_eq_one_of_mem hsrcs (hall _)]
    have hps := pubsub_both_orders
      (srcs.filter (fun h => h == Handler.dcps_publication_on_data ||
        h == Handler.dcps_subscription_on_data))
      (hsrcs.filter _)
      (by
        intro x hx
        have := (List.mem_filter.mp hx).2
        simpa using this)
      (List.mem_filter.mpr ⟨hall _, by simp⟩)
      (List.mem_filter.mpr ⟨hall _, by simp⟩)
    rcases hps with h | h <;> rw [h] <;> simp
  · intro hs
    rw [hcalls, hs]
    rfl

theorem identifies_only_tc_example :
    List.Forall₂ (identifies_only tc_example) [4, 3, 2, 1]
      [Handler.graph_on_participant_info, Handler.dcps_subscription_on_data,
       Handler.dcps_publication_on_data, Handler.dcps_participant_on_data] := by
  refine List.Forall₂.cons ?_ (List.Forall₂.cons ?_ (List.Forall₂.cons ?_
    (List.Forall₂.cons ?_ List.Forall₂.nil))) <;>
    intro h <;> cases h <;> simp [identifies, tc_example]

/-- Witness for C2: the ready-set `[4, 3, 2, 1]` holds the participant-info,
subscription, publication and participant identities, in this order; the four
handlers run once each: participant, subscription, publication (the order of
their entries), participant-info. -/
theorem dispatch_in_priority_order_witness :
    (∀ c ∈ [4, 3, 2, 1], tc_example.gcond_exit_owns c = false) ∧
    (iteration tc_example [4, 3, 2, 1]).calls =
      priority_order [Handler.graph_on_participant_info, Handler.dcps_subscription_on_data,
        Handler.dcps_publication_on_data, Handler.dcps_participant_on_data] ∧
    (iteration tc_example [4, 3, 2, 1]).calls.Perm
      [Handler.graph_on_participant_info, Handler.dcps_subscription_on_data,
        Handler.dcps_publication_on_data, Handler.dcps_participant_on_data] ∧
    (iteration tc_example [4, 3, 2, 1]).calls.length = [4, 3, 2, 1].length ∧
    [4, 3, 2, 1].Nodup ∧
    ((∀ h : Handler, h ∈ [Handler.graph_on_participant_info,
        Handler.dcps_subscription_on_data, Handler.dcps_publication_on_data,
        Handler.dcps_participant_on_data]) →
      (iteration tc_example [4, 3, 2, 1]).calls =
        [Handler.dcps_participant_on_data, Handler.dcps_publication_on_data,
         Handler.dcps_subscription_on_data, Handler.graph_on_participant_info] ∨
      (iteration tc_example [4, 3, 2, 1]).calls =
        [Handler.dcps_participant_on_data, Handler.dcps_subscription_on_data,
         Handler.dcps_publication_on_data, Handler.graph_on_participant_info]) ∧
    ([Handler.graph_on_participant_info, Handler.dcps_subscription_on_data,
        Handler.dcps_publication_on_data, Handler.dcps_participant_on_data]
      = [Handler.graph_on_participant_info] →
      (iteration tc_example [4, 3, 2, 1]).calls = [Handler.graph_on_participant_info]) :=
  ⟨by decide,
    dispatch_in_priority_order tc_example [4, 3, 2, 1]
      [Handler.graph_on_participant_info, Handler.dcps_subscription_on_data,
        Handler.dcps_publication_on_data, Handler.dcps_participant_on_data]
      (by decide) identifies_only_tc_example (by decide)⟩

end RmwDiscovery
